import Mathlib

/-!
# TextureAlbedoVolume (src/volume/texture_albedo.cpp)

A shallow embedding of the texture-albedo decorator: the binary loader
(`loadTextureAlbedo`), the world-to-texture transform built by `configure`, the
lookups (`lookupBundle`, `updateAlbedo`, the single-field lookups) and `addChild`.

Conventions of the embedding.

* `int` is a mathematical integer reduced to 32 bits by `wrap32` wherever the source
  does arithmetic on it (a signed overflow is the two's-complement wrap-around);
  `size_t` is a natural number below `2^64`.
* `Float` of the geometry (points, vectors, the transform, density, gloss) is an exact
  rational, and `floorToInt` is the exact floor; a `float` read from the file is kept as
  its raw 32-bit pattern.
* A fatal `Log(EError, ...)`, a stream exception and a failed allocation are the
  `Except.error` results of the operation.
* A read through `m_spectrumId` outside the allocated block has no defined value: the
  lookup that performs it returns `none`.
-/

namespace TextureAlbedo

/-! ## Machine integers -/

/-- Two's-complement reduction of an integer to the range of a 32-bit `int`. -/
def wrap32 (v : Int) : Int := (v + 2147483648) % 4294967296 - 2147483648

/-- The `int` product `a * b`. -/
def imul (a b : Int) : Int := wrap32 (a * b)

/-- The `int` sum `a + b`. -/
def iadd (a b : Int) : Int := wrap32 (a + b)

/-- Conversion of an `int` to `size_t` (64 bits): the value modulo `2^64`. -/
def toSizeT (v : Int) : Nat := (v % 18446744073709551616).toNat

/-- The values an `int` can hold. -/
def IsInt32 (v : Int) : Prop := -2147483648 ≤ v ∧ v < 2147483648

instance (v : Int) : Decidable (IsInt32 v) := by unfold IsInt32; infer_instance

/-! ## Values -/

/-- A `float` as stored in the file: its raw IEEE-754 single-precision bit pattern. -/
structure F32 where
  bits : Fin 4294967296
deriving DecidableEq

/-- The comparison `f == 0.0f`: true for the patterns of `+0.0` and `-0.0`. -/
def F32.isZero (f : F32) : Bool := f.bits.val % 2147483648 == 0

/-- The pattern of `0.0f`. -/
def F32.zero : F32 := ⟨0⟩

/-- Modelled from the spec: the `Spectrum` class (mitsuba/core/spectrum.h) is missing
from src/; the spec calls it "a color value constructed from a linear RGB triple", so a
colour is the triple of its linear RGB components. -/
structure Spectrum where
  r : F32
  g : F32
  b : F32
deriving DecidableEq

/-- Modelled from the spec: `Spectrum::fromLinearRGB(r, g, b)`, the colour of a linear
RGB triple. -/
def Spectrum.fromLinearRGB (r g b : F32) : Spectrum := ⟨r, g, b⟩

/-- Modelled from the spec: `Spectrum(0.0f)`, the zero colour. -/
def Spectrum.zero : Spectrum := ⟨F32.zero, F32.zero, F32.zero⟩

/-- Modelled from the spec: `Spectrum::isZero()`, every component compares equal to
zero. -/
def Spectrum.isZero (s : Spectrum) : Bool := s.r.isZero && s.g.isZero && s.b.isZero

/-- A `Point` of world or texture space. -/
structure Point where
  x : ℚ
  y : ℚ
  z : ℚ
deriving DecidableEq

/-- A `Vector` (direction or extent). -/
structure Vector where
  x : ℚ
  y : ℚ
  z : ℚ
deriving DecidableEq

/-- The value `Vector(0.0f)`. -/
def Vector.zero : Vector := ⟨0, 0, 0⟩

/-- A `Vector3i`: three `int` components. -/
structure Vector3i where
  x : Int
  y : Int
  z : Int
deriving DecidableEq

/-- An axis-aligned bounding box. -/
structure AABB where
  min : Point
  max : Point
deriving DecidableEq

/-- The method `AABB::getExtents()`: `max - min`, component-wise. -/
def AABB.getExtents (a : AABB) : Vector :=
  ⟨a.max.x - a.min.x, a.max.y - a.min.y, a.max.z - a.min.z⟩

/-- Modelled from the spec: the `Transform` class is missing from src/. A transform is
the upper three rows of its 4x4 matrix (the bottom row of an affine map is
`0 0 0 1`); row `i` is `(mi0, mi1, mi2, mi3)`. -/
structure Transform where
  m00 : ℚ
  m01 : ℚ
  m02 : ℚ
  m03 : ℚ
  m10 : ℚ
  m11 : ℚ
  m12 : ℚ
  m13 : ℚ
  m20 : ℚ
  m21 : ℚ
  m22 : ℚ
  m23 : ℚ
deriving DecidableEq

/-- Modelled from the spec: `Transform::scale(v)`, the non-uniform scale. -/
def Transform.scale (v : Vector) : Transform :=
  ⟨v.x, 0, 0, 0,  0, v.y, 0, 0,  0, 0, v.z, 0⟩

/-- Modelled from the spec: `Transform::translate(v)`, the translation by `v`. -/
def Transform.translate (v : Vector) : Transform :=
  ⟨1, 0, 0, v.x,  0, 1, 0, v.y,  0, 0, 1, v.z⟩

/-- Modelled from the spec: `Transform::operator*`, the matrix product `a * b` (apply
`b` first, then `a`). -/
def Transform.mul (a b : Transform) : Transform :=
  ⟨a.m00 * b.m00 + a.m01 * b.m10 + a.m02 * b.m20,
   a.m00 * b.m01 + a.m01 * b.m11 + a.m02 * b.m21,
   a.m00 * b.m02 + a.m01 * b.m12 + a.m02 * b.m22,
   a.m00 * b.m03 + a.m01 * b.m13 + a.m02 * b.m23 + a.m03,
   a.m10 * b.m00 + a.m11 * b.m10 + a.m12 * b.m20,
   a.m10 * b.m01 + a.m11 * b.m11 + a.m12 * b.m21,
   a.m10 * b.m02 + a.m11 * b.m12 + a.m12 * b.m22,
   a.m10 * b.m03 + a.m11 * b.m13 + a.m12 * b.m23 + a.m13,
   a.m20 * b.m00 + a.m21 * b.m10 + a.m22 * b.m20,
   a.m20 * b.m01 + a.m21 * b.m11 + a.m22 * b.m21,
   a.m20 * b.m02 + a.m21 * b.m12 + a.m22 * b.m22,
   a.m20 * b.m03 + a.m21 * b.m13 + a.m22 * b.m23 + a.m23⟩

/-- Modelled from the spec: `Transform::transformAffine(p)`, the matrix applied to the
point `(p.x, p.y, p.z, 1)`. -/
def Transform.transformAffine (t : Transform) (p : Point) : Point :=
  ⟨t.m00 * p.x + t.m01 * p.y + t.m02 * p.z + t.m03,
   t.m10 * p.x + t.m11 * p.y + t.m12 * p.z + t.m13,
   t.m20 * p.x + t.m21 * p.y + t.m22 * p.z + t.m23⟩

/-- The function `floorToInt`: the greatest integer not above `x`. -/
def floorToInt (x : ℚ) : Int := Int.floor x

/-! ## The catalog: `std::map<int, Spectrum>` -/

/-- The type `spectrum_map_t`, as the list of its (key, colour) entries; a key occurs at
most once in a map built by `spectrum_map_t.insert` from the empty map. -/
abbrev spectrum_map_t := List (Int × Spectrum)

/-- The method `std::map::find`: the colour stored under `k`, `none` for `end()`. -/
def spectrum_map_t.find : spectrum_map_t → Int → Option Spectrum
  | [], _ => none
  | (k0, s) :: m, k => if k0 = k then some s else spectrum_map_t.find m k

/-- The method `std::map::insert(value_type(k, s))`: adds the entry when the key is
absent and leaves the map unchanged when the key is already present. -/
def spectrum_map_t.insert (m : spectrum_map_t) (k : Int) (s : Spectrum) : spectrum_map_t :=
  match spectrum_map_t.find m k with
  | some _ => m
  | none => m ++ [(k, s)]

/-! ## The wrapped volume -/

/-- The four output slots of a bundle lookup; `none` is a null pointer, `some v` a
pointer to a slot holding `v`. -/
structure Bundle where
  density : Option ℚ
  direction : Option Vector
  albedo : Option Spectrum
  gloss : Option ℚ
deriving DecidableEq

/-- The interface `VolumeDataSourceEx` of the wrapped volume (declared in
mitsuba/render/volume2.h, not part of src/): every method the decorator calls, as a
function. `lookupBundle p b` returns the slots as the callee leaves them. -/
structure VolumeDataSourceEx where
  getStepSize : ℚ
  getAABB : AABB
  lookupFloat : Point → ℚ
  lookupFloatEx : Nat → Point → ℚ
  lookupSpectrum : Point → Spectrum
  lookupSpectrumEx : Nat → Point → Spectrum
  lookupVector : Point → Vector
  lookupVectorEx : Nat → Point → Vector
  lookupBundle : Point → Bundle → Bundle

/-! ## The byte stream -/

/-- A byte of the file. -/
abbrev Byte := Fin 256

/-- A `FileStream` opened for reading: the bytes from the read position to the end of
the file. -/
abbrev Stream := List Byte

/-- The ways `configure`, `loadTextureAlbedo` and `addChild` abort. -/
inductive Error where
  | noEmbeddedVolume
  | fileNotFound
  | endOfStream
  | badAlloc
  | invalidSpectrumId (id : Int)
  | assertionFailed
deriving DecidableEq

/-- The little-endian unsigned value of four bytes. -/
def le32 (b0 b1 b2 b3 : Byte) : Nat :=
  b0.val + 256 * b1.val + 65536 * b2.val + 16777216 * b3.val

/-- The method `Stream::readInt` in little-endian byte order: four bytes, read as a
signed 32-bit value; fails at the end of the stream. -/
def readInt : Stream → Except Error (Int × Stream)
  | b0 :: b1 :: b2 :: b3 :: rest => .ok (wrap32 (le32 b0 b1 b2 b3), rest)
  | _ => .error .endOfStream

/-- The method `Stream::readFloat` in little-endian byte order: four bytes, kept as the
bit pattern of the single. -/
def readFloat : Stream → Except Error (F32 × Stream)
  | b0 :: b1 :: b2 :: b3 :: rest => .ok (⟨Fin.ofNat (le32 b0 b1 b2 b3)⟩, rest)
  | _ => .error .endOfStream

/-- The method `Stream::readIntArray(dst, n)`: `n` consecutive `readInt`. -/
def readIntArray : Nat → Stream → Except Error (List Int × Stream)
  | 0, s => .ok ([], s)
  | n + 1, s => do
    let (v, s1) ← readInt s
    let (vs, s2) ← readIntArray n s1
    pure (v :: vs, s2)

/-- The constructor `Vector3i(stream)`: the three components in the order x, y, z. -/
def Vector3i.read (s : Stream) : Except Error (Vector3i × Stream) := do
  let (x, s1) ← readInt s
  let (y, s2) ← readInt s1
  let (z, s3) ← readInt s2
  pure (⟨x, y, z⟩, s3)

/-! ## The decorator -/

/-- The members of a `TextureAlbedoVolume`. `m_block` is `none` for a null reference;
`m_spectrumId` is the block of `int` the pointer gives access to (no cell while the
pointer has not been assigned). -/
structure TextureAlbedoVolume where
  m_block : Option VolumeDataSourceEx
  m_stepSize : ℚ
  m_aabb : AABB
  m_spectrumId : List Int
  m_reso : Vector3i
  m_nSpectrumItems : Int
  m_spectrumMap : spectrum_map_t
  m_textureAlbedoFile : String
  m_worldToTexture : Transform

/-- The scene properties handed to the constructor. -/
abbrev Properties := List (String × String)

/-- The method `Properties::getString(name, default)`. -/
def Properties.getString (props : Properties) (name dflt : String) : String :=
  (props.lookup name).getD dflt

/-- The constructor `TextureAlbedoVolume(props)`: it assigns `m_textureAlbedoFile`
only. `m_block` starts as the null reference and `m_spectrumMap` as the empty map; the
members the constructor never assigns (`m_reso`, `m_stepSize`, `m_aabb`,
`m_nSpectrumItems`, `m_worldToTexture`) keep whatever value `raw` holds, and
`m_spectrumId` points to no allocated cell. -/
def TextureAlbedoVolume.create (props : Properties) (raw : TextureAlbedoVolume) :
    TextureAlbedoVolume :=
  { raw with
    m_block := none
    m_spectrumId := []
    m_spectrumMap := []
    m_textureAlbedoFile := props.getString "textureAlbedoFile" "" }

/-- The catalog loop of `loadTextureAlbedo` (lines 87-95), `n` iterations: each reads
a key and three floats and inserts the colour under the key. -/
def readCatalog : Nat → spectrum_map_t → Stream → Except Error (spectrum_map_t × Stream)
  | 0, m, s => .ok (m, s)
  | n + 1, m, s => do
    let (v, s1) ← readInt s
    let (r, s2) ← readFloat s1
    let (g, s3) ← readFloat s2
    let (b, s4) ← readFloat s3
    readCatalog n (m.insert v (Spectrum.fromLinearRGB r g b)) s4

/-- The validation loop of `loadTextureAlbedo` (lines 99-104) over the cells
`0 .. count-1` of the grid: the first cell whose value is not a key of the catalog
raises the fatal "Invalid texture spectrum id". -/
def checkSpectrumIds (m : spectrum_map_t) : List Int → Except Error Unit
  | [] => .ok ()
  | id :: ids =>
    match m.find id with
    | none => .error (.invalidSpectrumId id)
    | some _ => checkSpectrumIds m ids

/-- The grid part of `loadTextureAlbedo` (lines 97-104), given the resolution `reso`,
the catalog count `n` and the catalog `cat` read so far: the grid size is the `int`
product `m_reso.x * m_reso.y * m_reso.z`; `new int[count]` fails for a negative count;
the cells are read in one `readIntArray` and then validated. On success the result is
the decorator with the loaded members and the unread rest of the stream. -/
def loadGrid (self : TextureAlbedoVolume) (reso : Vector3i) (n : Int) (cat : spectrum_map_t)
    (stream : Stream) : Except Error (TextureAlbedoVolume × Stream) :=
  let count := imul (imul reso.x reso.y) reso.z
  if count < 0 then
    .error .badAlloc
  else do
    let (ids, s4) ← readIntArray count.toNat stream
    checkSpectrumIds cat ids
    pure ({ self with
              m_reso := reso
              m_nSpectrumItems := n
              m_spectrumMap := cat
              m_spectrumId := ids }, s4)

/-- The method `loadTextureAlbedo` from the point where the file stream is open
(lines 82-104): the resolution, the catalog count, the catalog loop, then the grid
(`loadGrid`). The loop counter of the catalog is a `size_t` compared with the `int`
count, so the count is converted by `toSizeT`. -/
def loadTextureAlbedo (self : TextureAlbedoVolume) (stream : Stream) :
    Except Error (TextureAlbedoVolume × Stream) := do
  let (reso, s1) ← Vector3i.read stream
  let (n, s2) ← readInt s1
  let (cat, s3) ← readCatalog (toSizeT n) self.m_spectrumMap s2
  loadGrid self reso n cat s3

/-- The transform `configure` assigns to `m_worldToTexture` (lines 61-69): the scale by
`m_reso / volumeExtents` per axis times the translation by the negated minimum corner. -/
def worldToTexture (reso : Vector3i) (aabb : AABB) : Transform :=
  let volumeExtents := aabb.getExtents
  (Transform.scale ⟨(reso.x : ℚ) / volumeExtents.x,
                    (reso.y : ℚ) / volumeExtents.y,
                    (reso.z : ℚ) / volumeExtents.z⟩).mul
  (Transform.translate ⟨-aabb.min.x, -aabb.min.y, -aabb.min.z⟩)

/-- The method `configure`; `fs` is the file resolver together with the file system:
the content of the file a name resolves to, `none` when it cannot be opened. -/
def configure (fs : String → Option Stream) (self : TextureAlbedoVolume) :
    Except Error TextureAlbedoVolume :=
  match self.m_block with
  | none => .error .noEmbeddedVolume
  | some blk => do
    let self1 ←
      if self.m_textureAlbedoFile ≠ "" then
        match fs self.m_textureAlbedoFile with
        | none => .error .fileNotFound
        | some stream => (loadTextureAlbedo self stream).map Prod.fst
      else pure self
    pure { self1 with
             m_stepSize := blk.getStepSize
             m_aabb := blk.getAABB
             m_worldToTexture := worldToTexture self1.m_reso blk.getAABB }

/-- The read `m_spectrumId[off]`: defined for the cells of the allocated block only. -/
def readCell (cells : List Int) (off : Int) : Option Int :=
  if off < 0 then none else cells[off.toNat]?

/-- The method `updateAlbedo`: the new value of `*albedo`, or `none` when the grid
read falls outside the allocated block. -/
def updateAlbedo (self : TextureAlbedoVolume) (p : Point) (albedo : Spectrum) :
    Option Spectrum :=
  let q := self.m_worldToTexture.transformAffine p
  let tx := floorToInt q.x
  let ty := floorToInt q.y
  let tz := floorToInt q.z
  if tx < 0 ∨ tx ≥ self.m_reso.x ∨ ty < 0 ∨ ty ≥ self.m_reso.y ∨
      tz < 0 ∨ tz ≥ self.m_reso.z then
    some albedo
  else
    match readCell self.m_spectrumId
        (iadd (imul (iadd (imul tz self.m_reso.y) ty) self.m_reso.x) tx) with
    | none => none
    | some id =>
      match self.m_spectrumMap.find id with
      | some s => some s
      | none => some albedo

/-- The slots of a bundle lookup after lines 145-148: every requested slot is zero. -/
def Bundle.cleared (b : Bundle) : Bundle :=
  { density := b.density.map (fun _ => 0)
    direction := b.direction.map (fun _ => Vector.zero)
    albedo := b.albedo.map (fun _ => Spectrum.zero)
    gloss := b.gloss.map (fun _ => 0) }

/-- The method `lookupBundle`: the slots after the call, `none` when the call has no
defined result (null `m_block`, or an undefined grid read in `updateAlbedo`). -/
def lookupBundle (self : TextureAlbedoVolume) (p : Point) (b : Bundle) : Option Bundle :=
  match self.m_block with
  | none => none
  | some blk =>
    let b1 := blk.lookupBundle p b.cleared
    match b.albedo, b1.albedo with
    | some _, some a =>
      if a.isZero then some b1
      else (updateAlbedo self p a).map (fun s => { b1 with albedo := some s })
    | _, _ => some b1

/-- The method `lookupFloat`. -/
def lookupFloat (self : TextureAlbedoVolume) (p : Point) : Option ℚ :=
  self.m_block.map (fun blk => blk.lookupFloat p)

/-- The method `lookupFloatEx`. -/
def lookupFloatEx (self : TextureAlbedoVolume) (id : Nat) (p : Point) : Option ℚ :=
  self.m_block.map (fun blk => blk.lookupFloatEx id p)

/-- The method `lookupSpectrum`. -/
def lookupSpectrum (self : TextureAlbedoVolume) (p : Point) : Option Spectrum :=
  self.m_block.map (fun blk => blk.lookupSpectrum p)

/-- The method `lookupSpectrumEx`. -/
def lookupSpectrumEx (self : TextureAlbedoVolume) (id : Nat) (p : Point) :
    Option Spectrum :=
  self.m_block.map (fun blk => blk.lookupSpectrumEx id p)

/-- A child handed to `addChild`: an object whose class derives from
`VolumeDataSourceEx`, or an object of any other class. -/
inductive ConfigurableObject where
  | volume (blk : VolumeDataSourceEx)
  | other

/-- The method `addChild`. Modelled from the spec: the macro `Assert` is missing from
src/; by the spec "attempting to attach a second wrapped volume" is a fatal
configuration error, so a failed `Assert(m_block == NULL)` aborts the call before the
assignment. `baseAddChild` is `VolumeDataSource::addChild`, which receives the children
of other classes. -/
def addChild (baseAddChild : TextureAlbedoVolume → String → Except Error TextureAlbedoVolume)
    (self : TextureAlbedoVolume) (name : String) (child : ConfigurableObject) :
    Except Error TextureAlbedoVolume :=
  match child with
  | .volume blk =>
    match self.m_block with
    | none => .ok { self with m_block := some blk }
    | some _ => .error .assertionFailed
  | .other => baseAddChild self name

/-- A sequence of `addChild` calls on one decorator; a call that fails leaves the
decorator as it was. -/
def addChildren (baseAddChild : TextureAlbedoVolume → String → Except Error TextureAlbedoVolume)
    (self : TextureAlbedoVolume) : List (String × ConfigurableObject) → TextureAlbedoVolume
  | [] => self
  | (name, child) :: rest =>
    match addChild baseAddChild self name child with
    | .ok self1 => addChildren baseAddChild self1 rest
    | .error _ => addChildren baseAddChild self rest

/-! ## The file layout of the spec -/

/-- The four little-endian bytes of the 32-bit pattern `u`. -/
def encodeWord (u : Nat) : List Byte :=
  [Fin.ofNat u, Fin.ofNat (u / 256), Fin.ofNat (u / 65536), Fin.ofNat (u / 16777216)]

/-- A 32-bit signed integer of the file. -/
def encodeInt (v : Int) : List Byte := encodeWord (v % 4294967296).toNat

/-- A 32-bit float of the file. -/
def encodeFloat (f : F32) : List Byte := encodeWord f.bits.val

/-- A catalog record of the file: the index key and the linear R, G, B. -/
structure Record where
  key : Int
  r : F32
  g : F32
  b : F32
deriving DecidableEq

/-- The colour a record stands for. -/
def Record.colour (rec : Record) : Spectrum := Spectrum.fromLinearRGB rec.r rec.g rec.b

/-- The 16 bytes of a catalog record. -/
def encodeRecord (rec : Record) : List Byte :=
  encodeInt rec.key ++ (encodeFloat rec.r ++ (encodeFloat rec.g ++ encodeFloat rec.b))

/-- The catalog section: the records in order. -/
def encodeRecords : List Record → List Byte
  | [] => []
  | rec :: recs => encodeRecord rec ++ encodeRecords recs

/-- The grid section: the voxel indices in order. -/
def encodeInts : List Int → List Byte
  | [] => []
  | v :: vs => encodeInt v ++ encodeInts vs

/-- The binary layout of the spec (section 4.1): the resolution, the catalog size
`count`, the records, then the grid. -/
def encodeFile (reso : Vector3i) (count : Int) (recs : List Record) (grid : List Int) :
    List Byte :=
  encodeInt reso.x ++ (encodeInt reso.y ++ (encodeInt reso.z ++ (encodeInt count ++
    (encodeRecords recs ++ encodeInts grid))))

/-- The catalog the loop of `loadTextureAlbedo` builds from the records, starting from
the map `m`. -/
def insertRecords (m : spectrum_map_t) : List Record → spectrum_map_t
  | [] => m
  | rec :: recs => insertRecords (m.insert rec.key rec.colour) recs

/-- The first record of the list with the key `k`. -/
def firstRecord (k : Int) : List Record → Option Record
  | [] => none
  | rec :: recs => if rec.key = k then some rec else firstRecord k recs

/-- The floored texture coordinate of the world point `p` passes the bounds test of
`updateAlbedo` (line 169 does not return). -/
def InBounds (self : TextureAlbedoVolume) (p : Point) : Prop :=
  let q := self.m_worldToTexture.transformAffine p
  (0 ≤ floorToInt q.x ∧ floorToInt q.x < self.m_reso.x) ∧
  (0 ≤ floorToInt q.y ∧ floorToInt q.y < self.m_reso.y) ∧
  (0 ≤ floorToInt q.z ∧ floorToInt q.z < self.m_reso.z)

/-! ## Example data

A wrapped volume over the box `[0,2] x [0,1] x [0,1]` that answers every bundle lookup
with a white albedo, and a 2 x 1 x 1 texture file with the catalog `7 -> red`,
`9 -> green` and the grid `[7, 9]`. -/

/-- The colour `(1.0, 1.0, 1.0)`. -/
def demoWhite : Spectrum := ⟨⟨1065353216⟩, ⟨1065353216⟩, ⟨1065353216⟩⟩

/-- The record `7 -> (1.0, 0.0, 0.0)`. -/
def demoRed : Record := ⟨7, ⟨1065353216⟩, ⟨0⟩, ⟨0⟩⟩

/-- The record `9 -> (0.0, 1.0, 0.0)`. -/
def demoGreen : Record := ⟨9, ⟨0⟩, ⟨1065353216⟩, ⟨0⟩⟩

/-- A wrapped volume whose bundle lookup writes white into a requested albedo slot and
leaves the other slots as they are. -/
def demoBlock : VolumeDataSourceEx :=
  { getStepSize := 1
    getAABB := ⟨⟨0, 0, 0⟩, ⟨2, 1, 1⟩⟩
    lookupFloat := fun _ => 1
    lookupFloatEx := fun _ _ => 1
    lookupSpectrum := fun _ => demoWhite
    lookupSpectrumEx := fun _ _ => demoWhite
    lookupVector := fun _ => ⟨0, 0, 1⟩
    lookupVectorEx := fun _ _ => ⟨0, 0, 1⟩
    lookupBundle := fun _ b => { b with albedo := b.albedo.map (fun _ => demoWhite) } }

/-- A wrapped volume whose bundle lookup fills no slot: the albedo stays zero. -/
def demoDarkBlock : VolumeDataSourceEx :=
  { demoBlock with lookupBundle := fun _ b => b }

/-- The values of the members before the constructor runs. -/
def demoRaw : TextureAlbedoVolume :=
  ⟨none, 0, ⟨⟨0, 0, 0⟩, ⟨0, 0, 0⟩⟩, [], ⟨0, 0, 0⟩, 0, [], "", Transform.scale ⟨0, 0, 0⟩⟩

/-- The texture file. -/
def demoFile : Stream := encodeFile ⟨2, 1, 1⟩ 2 [demoRed, demoGreen] [7, 9]

/-- A file system holding the texture file under the name `albedo.bin`. -/
def demoFs (name : String) : Option Stream :=
  if name = "albedo.bin" then some demoFile else none

/-- The decorator constructed with `textureAlbedoFile = albedo.bin`, wrapping
`demoBlock`. -/
def demoSelf : TextureAlbedoVolume :=
  { TextureAlbedoVolume.create [("textureAlbedoFile", "albedo.bin")] demoRaw with
    m_block := some demoBlock }

/-- The decorator after `loadTextureAlbedo`. -/
def demoLoaded : TextureAlbedoVolume :=
  { demoSelf with
    m_reso := ⟨2, 1, 1⟩
    m_nSpectrumItems := 2
    m_spectrumMap := [(7, demoRed.colour), (9, demoGreen.colour)]
    m_spectrumId := [7, 9] }

/-- The decorator after `configure`. -/
def demoCfg : TextureAlbedoVolume :=
  { demoLoaded with
    m_stepSize := 1
    m_aabb := ⟨⟨0, 0, 0⟩, ⟨2, 1, 1⟩⟩
    m_worldToTexture := worldToTexture ⟨2, 1, 1⟩ ⟨⟨0, 0, 0⟩, ⟨2, 1, 1⟩⟩ }

/-- A bundle request for the albedo slot only. -/
def demoRequest : Bundle := ⟨none, none, some Spectrum.zero, none⟩

/-- A wrapped volume like `demoBlock` over the box `[0,65536] x [0,65536] x [0,1]`. -/
def wideBlock : VolumeDataSourceEx :=
  { demoBlock with getAABB := ⟨⟨0, 0, 0⟩, ⟨65536, 65536, 1⟩⟩ }

/-- The header and the catalog of a 65536 x 65536 x 1 texture (catalog `7 -> red`),
without any grid byte. -/
def wideFile : Stream := encodeFile ⟨65536, 65536, 1⟩ 1 [demoRed] []

/-- A file system holding `wideFile` under the name `wide.bin`. -/
def wideFs (name : String) : Option Stream :=
  if name = "wide.bin" then some wideFile else none

/-- The decorator constructed with `textureAlbedoFile = wide.bin`, wrapping
`wideBlock`. -/
def wideSelf : TextureAlbedoVolume :=
  { TextureAlbedoVolume.create [("textureAlbedoFile", "wide.bin")] demoRaw with
    m_block := some wideBlock }

/-- The decorator `wideSelf` after `configure`: the `int` product of the resolution is
`2^32`, which wraps to `0`, so the grid has no cell. -/
def wideCfg : TextureAlbedoVolume :=
  { wideSelf with
    m_reso := ⟨65536, 65536, 1⟩
    m_nSpectrumItems := 1
    m_spectrumMap := [(7, demoRed.colour)]
    m_spectrumId := []
    m_stepSize := 1
    m_aabb := ⟨⟨0, 0, 0⟩, ⟨65536, 65536, 1⟩⟩
    m_worldToTexture := worldToTexture ⟨65536, 65536, 1⟩ ⟨⟨0, 0, 0⟩, ⟨65536, 65536, 1⟩⟩ }

/-- A second record for the key `7`, with the colour `(0.0, 0.0, 1.0)`. -/
def dupLater : Record := ⟨7, ⟨0⟩, ⟨0⟩, ⟨1065353216⟩⟩

/-- A wrapped volume like `demoBlock` over the unit box. -/
def unitBlock : VolumeDataSourceEx :=
  { demoBlock with getAABB := ⟨⟨0, 0, 0⟩, ⟨1, 1, 1⟩⟩ }

/-- A 1 x 1 x 1 texture whose catalog section holds the key `7` twice, first red, then
blue, and whose only voxel stores `7`. -/
def dupFile : Stream := encodeFile ⟨1, 1, 1⟩ 2 [demoRed, dupLater] [7]

/-- A file system holding `dupFile` under the name `dup.bin`. -/
def dupFs (name : String) : Option Stream :=
  if name = "dup.bin" then some dupFile else none

/-- The decorator constructed with `textureAlbedoFile = dup.bin`, wrapping
`unitBlock`. -/
def dupSelf : TextureAlbedoVolume :=
  { TextureAlbedoVolume.create [("textureAlbedoFile", "dup.bin")] demoRaw with
    m_block := some unitBlock }

/-- The decorator `dupSelf` after `configure`. -/
def dupCfg : TextureAlbedoVolume :=
  { dupSelf with
    m_reso := ⟨1, 1, 1⟩
    m_nSpectrumItems := 2
    m_spectrumMap := [(7, demoRed.colour)]
    m_spectrumId := [7]
    m_stepSize := 1
    m_aabb := ⟨⟨0, 0, 0⟩, ⟨1, 1, 1⟩⟩
    m_worldToTexture := worldToTexture ⟨1, 1, 1⟩ ⟨⟨0, 0, 0⟩, ⟨1, 1, 1⟩⟩ }

/-- Members before the constructor runs, with `m_reso` holding `(1, 1, 1)`. -/
def onesRaw : TextureAlbedoVolume := { demoRaw with m_reso := ⟨1, 1, 1⟩ }

/-- The decorator constructed from properties without `textureAlbedoFile` over
`onesRaw`, wrapping `unitBlock`. -/
def noFileSelf : TextureAlbedoVolume :=
  { TextureAlbedoVolume.create [] onesRaw with m_block := some unitBlock }

/-- The decorator `noFileSelf` after `configure`: nothing is loaded. -/
def noFileCfg : TextureAlbedoVolume :=
  { noFileSelf with
    m_stepSize := 1
    m_aabb := ⟨⟨0, 0, 0⟩, ⟨1, 1, 1⟩⟩
    m_worldToTexture := worldToTexture ⟨1, 1, 1⟩ ⟨⟨0, 0, 0⟩, ⟨1, 1, 1⟩⟩ }

/-- A bundle request for all four slots. -/
def demoFullRequest : Bundle := ⟨some 0, some Vector.zero, some Spectrum.zero, some 0⟩

/-- A wrapped volume like `demoBlock` over the box `[0,65536] x [0,32768] x [0,2]`. -/
def deepBlock : VolumeDataSourceEx :=
  { demoBlock with getAABB := ⟨⟨0, 0, 0⟩, ⟨65536, 32768, 2⟩⟩ }

/-- The header and the catalog of a 65536 x 32768 x 2 texture (catalog `7 -> red`),
without any grid byte. -/
def deepFile : Stream := encodeFile ⟨65536, 32768, 2⟩ 1 [demoRed] []

/-- A file system holding `deepFile` under the name `deep.bin`. -/
def deepFs (name : String) : Option Stream :=
  if name = "deep.bin" then some deepFile else none

/-- The decorator constructed with `textureAlbedoFile = deep.bin`, wrapping
`deepBlock`. -/
def deepSelf : TextureAlbedoVolume :=
  { TextureAlbedoVolume.create [("textureAlbedoFile", "deep.bin")] demoRaw with
    m_block := some deepBlock }

/-- The decorator `deepSelf` after `configure`: the `int` product of the resolution is
`2^32`, which wraps to `0`, so the grid has no cell. -/
def deepCfg : TextureAlbedoVolume :=
  { deepSelf with
    m_reso := ⟨65536, 32768, 2⟩
    m_nSpectrumItems := 1
    m_spectrumMap := [(7, demoRed.colour)]
    m_spectrumId := []
    m_stepSize := 1
    m_aabb := ⟨⟨0, 0, 0⟩, ⟨65536, 32768, 2⟩⟩
    m_worldToTexture := worldToTexture ⟨65536, 32768, 2⟩ ⟨⟨0, 0, 0⟩, ⟨65536, 32768, 2⟩⟩ }

/-! ## Lemmas -/

theorem le32_encodeWord (u : Nat) (h : u < 4294967296) :
    le32 (Fin.ofNat u) (Fin.ofNat (u / 256)) (Fin.ofNat (u / 65536)) (Fin.ofNat (u / 16777216)) = u := by
  simp only [le32, Fin.ofNat, Fin.val_mk]  
  omega

theorem readInt_encodeWord (u : Nat) (h : u < 4294967296) (rest : Stream) :
    readInt (encodeWord u ++ rest) = .ok (wrap32 u, rest) := by
  show Except.ok (wrap32 (le32 _ _ _ _ : Nat), rest) = _
  rw [le32_encodeWord u h]

theorem readInt_encodeInt (v : Int) (rest : Stream) :
    readInt (encodeInt v ++ rest) = .ok (wrap32 v, rest) := by
  have hu : (v % 4294967296).toNat < 4294967296 := by omega
  unfold encodeInt
  have hw : wrap32 ((v % 4294967296).toNat : Int) = wrap32 v := by
    unfold wrap32; omega
  rw [readInt_encodeWord _ hu, hw]

theorem readFloat_encodeFloat (f : F32) (rest : Stream) :
    readFloat (encodeFloat f ++ rest) = .ok (f, rest) := by
  show Except.ok ((⟨Fin.ofNat (le32 _ _ _ _)⟩ : F32), rest) = _
  rw [le32_encodeWord _ f.bits.isLt]
  have hb : (Fin.ofNat f.bits.val : Fin 4294967296) = f.bits := by
    apply Fin.ext
    simp only [Fin.ofNat, Fin.val_mk]
    omega
  rw [hb]
   

theorem wrap32_of_isInt32 {v : Int} (h : IsInt32 v) : wrap32 v = v := by
  unfold IsInt32 at h; unfold wrap32; omega

theorem isInt32_wrap32 (v : Int) : IsInt32 (wrap32 v) := by
  unfold IsInt32 wrap32; omega

theorem wrap32_add_mul (y t : Int) : wrap32 (y + 4294967296 * t) = wrap32 y := by
  unfold wrap32; omega

theorem wrap32_wrap32_mul (x c : Int) : wrap32 (wrap32 x * c) = wrap32 (x * c) := by
  have h : wrap32 x = x + 4294967296 * (-((x + 2147483648) / 4294967296)) := by
    unfold wrap32; omega
  rw [h, add_mul, mul_assoc, wrap32_add_mul]

theorem imul_imul (x y z : Int) : imul (imul x y) z = wrap32 (x * y * z) := by
  unfold imul; rw [wrap32_wrap32_mul]

theorem ok_bind {α β : Type} (a : α) (f : α → Except Error β) :
    ((Except.ok a : Except Error α) >>= f) = f a := rfl

theorem error_bind {α β : Type} (e : Error) (f : α → Except Error β) :
    ((Except.error e : Except Error α) >>= f) = Except.error e := rfl

/-! ### The catalog -/

theorem find_append (m1 m2 : spectrum_map_t) (k : Int) :
    spectrum_map_t.find (m1 ++ m2) k =
      match spectrum_map_t.find m1 k with
      | some s => some s
      | none => spectrum_map_t.find m2 k := by
  induction m1 with
  | nil => rfl
  | cons e m ih =>
    obtain ⟨k0, s⟩ := e
    by_cases h : k0 = k
    · simp [spectrum_map_t.find, h]
    · simpa [spectrum_map_t.find, h] using ih

theorem find_insert (m : spectrum_map_t) (k : Int) (s : Spectrum) (k2 : Int) :
    spectrum_map_t.find (m.insert k s) k2 =
      match spectrum_map_t.find m k2 with
      | some c => some c
      | none => if k = k2 then some s else none := by
  unfold spectrum_map_t.insert
  cases hk : spectrum_map_t.find m k with
  | some c0 =>
    cases hk2 : spectrum_map_t.find m k2 with
    | some c => simp
    | none =>
      have : k ≠ k2 := by
        intro h; rw [h] at hk; rw [hk] at hk2; cases hk2
      simp [hk2, this]
  | none =>
    simp only [find_append, spectrum_map_t.find]

theorem find_insertRecords (recs : List Record) : ∀ (m : spectrum_map_t) (k : Int),
    spectrum_map_t.find (insertRecords m recs) k =
      match spectrum_map_t.find m k with
      | some c => some c
      | none => (firstRecord k recs).map Record.colour := by
  induction recs with
  | nil => intro m k; cases h : spectrum_map_t.find m k <;> simp [insertRecords, firstRecord, h]
  | cons rec recs ih =>
    intro m k
    simp only [insertRecords, firstRecord]
    rw [ih, find_insert]
    cases h : spectrum_map_t.find m k with
    | some c => simp
    | none =>
      by_cases hk : rec.key = k <;> simp [hk]

theorem readCatalog_encodeRecords (recs : List Record) :
    ∀ (m : spectrum_map_t) (rest : Stream), (∀ rec ∈ recs, IsInt32 rec.key) →
    readCatalog recs.length m (encodeRecords recs ++ rest) = .ok (insertRecords m recs, rest) := by
  induction recs with
  | nil => intro m rest _; rfl
  | cons rec recs ih =>
    intro m rest h
    have hk : IsInt32 rec.key := h rec (List.mem_cons_self _ _)
    have ht : ∀ r ∈ recs, IsInt32 r.key := fun r hr => h r (List.mem_cons_of_mem _ hr)
    simp only [List.length_cons, readCatalog, encodeRecords, encodeRecord, List.append_assoc,
      readInt_encodeInt, readFloat_encodeFloat, wrap32_of_isInt32 hk, ok_bind]
    exact ih _ rest ht

/-! ### The grid -/

theorem readIntArray_encodeInts (vs : List Int) :
    ∀ (rest : Stream), (∀ v ∈ vs, IsInt32 v) →
    readIntArray vs.length (encodeInts vs ++ rest) = .ok (vs, rest) := by
  induction vs with
  | nil => intro rest _; rfl
  | cons v vs ih =>
    intro rest h
    have hv : IsInt32 v := h v (List.mem_cons_self _ _)
    have ht : ∀ w ∈ vs, IsInt32 w := fun w hw => h w (List.mem_cons_of_mem _ hw)
    simp only [List.length_cons, readIntArray, encodeInts, List.append_assoc,
      readInt_encodeInt, wrap32_of_isInt32 hv, ih rest ht, ok_bind]
    rfl

theorem readInt_ok {s : Stream} {v : Int} {rest : Stream} (h : readInt s = .ok (v, rest)) :
    s.length = 4 + rest.length ∧ IsInt32 v := by
  match s, h with
  | b0 :: b1 :: b2 :: b3 :: r, h =>
    simp only [readInt, Except.ok.injEq, Prod.mk.injEq] at h
    obtain ⟨h1, h2⟩ := h
    subst h1 h2
    exact ⟨by simp only [List.length_cons]; omega, isInt32_wrap32 _⟩

theorem readIntArray_ok : ∀ (n : Nat) (s : Stream) (vs : List Int) (rest : Stream),
    readIntArray n s = .ok (vs, rest) → vs.length = n ∧ s.length = 4 * n + rest.length := by
  intro n
  induction n with
  | zero =>
    intro s vs rest h
    simp only [readIntArray, Except.ok.injEq, Prod.mk.injEq] at h
    obtain ⟨h1, h2⟩ := h
    subst h1 h2
    simp
  | succ n ih =>
    intro s vs rest h
    simp only [readIntArray] at h
    cases h1 : readInt s with
    | error e => rw [h1, error_bind] at h; cases h
    | ok r1 =>
      obtain ⟨v, s1⟩ := r1
      rw [h1, ok_bind] at h
      cases h2 : readIntArray n s1 with
      | error e => simp only [h2, error_bind] at h; cases h
      | ok r2 =>
        obtain ⟨ws, s2⟩ := r2
        simp only [h2, ok_bind] at h
        have h3 : (v :: ws, s2) = (vs, rest) := by
          simpa [pure, Except.pure] using h
        simp only [Prod.mk.injEq] at h3
        obtain ⟨hv, hr⟩ := h3
        subst hv hr
        obtain ⟨l1, l2⟩ := ih s1 ws s2 h2
        obtain ⟨l3, _⟩ := readInt_ok h1
        refine ⟨by simp [l1], by omega⟩

theorem checkSpectrumIds_ok_iff (m : spectrum_map_t) (ids : List Int) :
    checkSpectrumIds m ids = .ok () ↔ ∀ id ∈ ids, (spectrum_map_t.find m id).isSome = true := by
  induction ids with
  | nil => simp [checkSpectrumIds]
  | cons id ids ih =>
    cases h : spectrum_map_t.find m id with
    | none => simp [checkSpectrumIds, h]
    | some c => simp [checkSpectrumIds, h, ih]

theorem checkSpectrumIds_error (m : spectrum_map_t) (good : List Int) (bad : Int)
    (tail : List Int) (hgood : ∀ id ∈ good, (spectrum_map_t.find m id).isSome = true)
    (hbad : spectrum_map_t.find m bad = none) :
    checkSpectrumIds m (good ++ bad :: tail) = .error (.invalidSpectrumId bad) := by
  induction good with
  | nil => simp [checkSpectrumIds, hbad]
  | cons id ids ih =>
    have h1 := hgood id (List.mem_cons_self _ _)
    have h2 : ∀ i ∈ ids, (spectrum_map_t.find m i).isSome = true :=
      fun i hi => hgood i (List.mem_cons_of_mem _ hi)
    cases h : spectrum_map_t.find m id with
    | none => rw [h] at h1; cases h1
    | some c => simp [checkSpectrumIds, h, ih h2]

/-! ### The loader -/

theorem toSizeT_natCast (n : Nat) (h : n < 2147483648) : toSizeT (n : Int) = n := by
  unfold toSizeT; omega

theorem Vector3i_read_encode (reso : Vector3i) (rest : Stream)
    (hx : IsInt32 reso.x) (hy : IsInt32 reso.y) (hz : IsInt32 reso.z) :
    Vector3i.read (encodeInt reso.x ++ (encodeInt reso.y ++ (encodeInt reso.z ++ rest))) =
      .ok (reso, rest) := by
  unfold Vector3i.read
  rw [readInt_encodeInt, ok_bind]
  simp only []
  rw [readInt_encodeInt, ok_bind]
  simp only []
  rw [readInt_encodeInt, ok_bind]
  simp only []
  rw [wrap32_of_isInt32 hx, wrap32_of_isInt32 hy, wrap32_of_isInt32 hz]
  rfl

theorem loadTextureAlbedo_layout (self : TextureAlbedoVolume) (reso : Vector3i)
    (recs : List Record) (tail : Stream)
    (hx : IsInt32 reso.x) (hy : IsInt32 reso.y) (hz : IsInt32 reso.z)
    (hn : recs.length < 2147483648) (hk : ∀ rec ∈ recs, IsInt32 rec.key) :
    loadTextureAlbedo self
        (encodeInt reso.x ++ (encodeInt reso.y ++ (encodeInt reso.z ++
          (encodeInt recs.length ++ (encodeRecords recs ++ tail))))) =
      loadGrid self reso recs.length (insertRecords self.m_spectrumMap recs) tail := by
  have hc : IsInt32 (recs.length : Int) := by unfold IsInt32; omega
  unfold loadTextureAlbedo
  rw [Vector3i_read_encode reso _ hx hy hz, ok_bind]
  simp only []
  rw [readInt_encodeInt, ok_bind]
  simp only []
  rw [wrap32_of_isInt32 hc, toSizeT_natCast _ hn, readCatalog_encodeRecords recs _ _ hk, ok_bind]

theorem loadGrid_ok {self : TextureAlbedoVolume} {reso : Vector3i} {n : Int}
    {cat : spectrum_map_t} {stream : Stream} {st : TextureAlbedoVolume} {rest : Stream}
    (h : loadGrid self reso n cat stream = .ok (st, rest)) :
    ∃ ids : List Int,
      0 ≤ imul (imul reso.x reso.y) reso.z ∧
      readIntArray (imul (imul reso.x reso.y) reso.z).toNat stream = .ok (ids, rest) ∧
      checkSpectrumIds cat ids = .ok () ∧
      st = { self with m_reso := reso, m_nSpectrumItems := n, m_spectrumMap := cat,
                       m_spectrumId := ids } := by
  unfold loadGrid at h
  simp only [] at h
  by_cases hneg : imul (imul reso.x reso.y) reso.z < 0
  · rw [if_pos hneg] at h; cases h
  · rw [if_neg hneg] at h
    cases h4 : readIntArray (imul (imul reso.x reso.y) reso.z).toNat stream with
    | error e => rw [h4, error_bind] at h; cases h
    | ok r4 =>
      obtain ⟨ids, s4⟩ := r4
      rw [h4, ok_bind] at h
      simp only [] at h
      cases h5 : checkSpectrumIds cat ids with
      | error e => rw [h5, error_bind] at h; cases h
      | ok u =>
        rw [h5, ok_bind] at h
        simp only [pure, Except.pure, Except.ok.injEq, Prod.mk.injEq] at h
        obtain ⟨hst, hrest⟩ := h
        subst hrest
        exact ⟨ids, by omega, rfl, h5, hst.symm⟩

theorem loadTextureAlbedo_ok {self : TextureAlbedoVolume} {stream : Stream}
    {st : TextureAlbedoVolume} {rest : Stream}
    (h : loadTextureAlbedo self stream = .ok (st, rest)) :
    ∃ (reso : Vector3i) (s1 : Stream) (n : Int) (s2 : Stream) (cat : spectrum_map_t)
      (s3 : Stream),
      Vector3i.read stream = .ok (reso, s1) ∧ readInt s1 = .ok (n, s2) ∧
      readCatalog (toSizeT n) self.m_spectrumMap s2 = .ok (cat, s3) ∧
      loadGrid self reso n cat s3 = .ok (st, rest) := by
  unfold loadTextureAlbedo at h
  cases h1 : Vector3i.read stream with
  | error e => rw [h1, error_bind] at h; cases h
  | ok r1 =>
    obtain ⟨reso, s1⟩ := r1
    rw [h1, ok_bind] at h
    simp only [] at h
    cases h2 : readInt s1 with
    | error e => rw [h2, error_bind] at h; cases h
    | ok r2 =>
      obtain ⟨n, s2⟩ := r2
      rw [h2, ok_bind] at h
      simp only [] at h
      cases h3 : readCatalog (toSizeT n) self.m_spectrumMap s2 with
      | error e => rw [h3, error_bind] at h; cases h
      | ok r3 =>
        obtain ⟨cat, s3⟩ := r3
        rw [h3, ok_bind] at h
        exact ⟨reso, s1, n, s2, cat, s3, rfl, h2, h3, h⟩

/-! ### Configuration and lookups -/

theorem updateAlbedo_of_not_inBounds (self : TextureAlbedoVolume) (p : Point) (a : Spectrum)
    (h : ¬ InBounds self p) : updateAlbedo self p a = some a := by
  unfold updateAlbedo
  simp only []
  rw [if_pos]
  unfold InBounds at h
  simp only [] at h
  omega

theorem lookupBundle_of_zero (self : TextureAlbedoVolume) (blk : VolumeDataSourceEx)
    (p : Point) (b : Bundle) (a : Spectrum) (hblk : self.m_block = some blk)
    (ha : (blk.lookupBundle p b.cleared).albedo = some a) (hz : a.isZero = true) :
    lookupBundle self p b = some (blk.lookupBundle p b.cleared) := by
  unfold lookupBundle
  rw [hblk]
  simp only [ha]
  cases b.albedo <;> simp [hz]

theorem lookupBundle_of_nonzero (self : TextureAlbedoVolume) (blk : VolumeDataSourceEx)
    (p : Point) (b : Bundle) (a a0 : Spectrum) (hblk : self.m_block = some blk)
    (hreq : b.albedo = some a0)
    (ha : (blk.lookupBundle p b.cleared).albedo = some a) (hz : a.isZero = false) :
    lookupBundle self p b =
      (updateAlbedo self p a).map
        (fun s => { blk.lookupBundle p b.cleared with albedo := some s }) := by
  unfold lookupBundle
  rw [hblk]
  simp only [ha, hreq, hz]
  rfl

theorem bundle_albedo_eta (b : Bundle) (a : Spectrum) (h : b.albedo = some a) :
    { b with albedo := some a } = b := by
  cases b; simp_all

theorem lookupBundle_of_not_inBounds (self : TextureAlbedoVolume) (blk : VolumeDataSourceEx)
    (p : Point) (b : Bundle) (hblk : self.m_block = some blk) (h : ¬ InBounds self p) :
    lookupBundle self p b = some (blk.lookupBundle p b.cleared) := by
  cases hreq : b.albedo with
  | none => unfold lookupBundle; rw [hblk]; simp only [hreq]
  | some a0 =>
    cases ha : (blk.lookupBundle p b.cleared).albedo with
    | none => unfold lookupBundle; rw [hblk]; simp only [hreq, ha]
    | some a =>
      cases hz : a.isZero with
      | true => exact lookupBundle_of_zero self blk p b a hblk ha hz
      | false =>
        rw [lookupBundle_of_nonzero self blk p b a a0 hblk hreq ha hz,
          updateAlbedo_of_not_inBounds self p a h]
        simp only [Option.map_some', bundle_albedo_eta _ _ ha]

theorem configure_ok {fs : String → Option Stream} {self cfg : TextureAlbedoVolume}
    (h : configure fs self = .ok cfg) :
    ∃ (blk : VolumeDataSourceEx) (self1 : TextureAlbedoVolume),
      self.m_block = some blk ∧
      ((self.m_textureAlbedoFile = "" ∧ self1 = self) ∨
       (self.m_textureAlbedoFile ≠ "" ∧ ∃ stream rest,
          fs self.m_textureAlbedoFile = some stream ∧
          loadTextureAlbedo self stream = .ok (self1, rest))) ∧
      cfg = { self1 with
                m_stepSize := blk.getStepSize
                m_aabb := blk.getAABB
                m_worldToTexture := worldToTexture self1.m_reso blk.getAABB } := by
  unfold configure at h
  cases hb : self.m_block with
  | none => rw [hb] at h; cases h
  | some blk =>
    rw [hb] at h
    simp only [] at h
    by_cases hf : self.m_textureAlbedoFile = ""
    · rw [if_neg (not_not.mpr hf)] at h
      simp only [pure, Except.pure, ok_bind, Except.ok.injEq] at h
      exact ⟨blk, self, rfl, Or.inl ⟨hf, rfl⟩, h.symm⟩
    · rw [if_pos hf] at h
      cases hs : fs self.m_textureAlbedoFile with
      | none => rw [hs] at h; simp only [error_bind] at h; cases h
      | some stream =>
        rw [hs] at h
        simp only [] at h
        cases hl : loadTextureAlbedo self stream with
        | error e => rw [hl] at h; simp only [Except.map, error_bind] at h; cases h
        | ok r =>
          obtain ⟨self1, rest⟩ := r
          rw [hl] at h
          simp only [Except.map, ok_bind, pure, Except.pure, Except.ok.injEq] at h
          exact ⟨blk, self1, rfl, Or.inr ⟨hf, stream, rest, rfl, hl⟩, h.symm⟩

theorem loadTextureAlbedo_block {self : TextureAlbedoVolume} {stream : Stream}
    {st : TextureAlbedoVolume} {rest : Stream}
    (h : loadTextureAlbedo self stream = .ok (st, rest)) : st.m_block = self.m_block := by
  obtain ⟨reso, s1, n, s2, cat, s3, _, _, _, hg⟩ := loadTextureAlbedo_ok h
  obtain ⟨ids, _, _, _, hst⟩ := loadGrid_ok hg
  rw [hst]

theorem configure_block {fs : String → Option Stream} {self cfg : TextureAlbedoVolume}
    (h : configure fs self = .ok cfg) : cfg.m_block = self.m_block := by
  obtain ⟨blk, self1, hb, hcase, hcfg⟩ := configure_ok h
  rw [hcfg]
  rcases hcase with ⟨_, h1⟩ | ⟨_, stream, rest, _, hl⟩
  · rw [h1]
  · exact (loadTextureAlbedo_block hl : self1.m_block = self.m_block)

theorem configure_worldToTexture {fs : String → Option Stream}
    {self cfg : TextureAlbedoVolume} {blk : VolumeDataSourceEx}
    (h : configure fs self = .ok cfg) (hblk : self.m_block = some blk) :
    cfg.m_worldToTexture = worldToTexture cfg.m_reso blk.getAABB := by
  obtain ⟨blk1, self1, hb, _, hcfg⟩ := configure_ok h
  rw [hblk] at hb
  cases hb
  rw [hcfg]

/-! ### The example data -/

theorem demo_transformAffine (x y z : ℚ) :
    (worldToTexture ⟨2, 1, 1⟩ ⟨⟨0, 0, 0⟩, ⟨2, 1, 1⟩⟩).transformAffine ⟨x, y, z⟩ = ⟨x, y, z⟩ := by
  simp [worldToTexture, Transform.transformAffine, Transform.mul, Transform.scale,
    Transform.translate, AABB.getExtents]

/-! ### The grid offset -/

theorem offset_bounds {nx ny nz tx ty tz : Int}
    (hx : 0 ≤ tx ∧ tx < nx) (hy : 0 ≤ ty ∧ ty < ny) (hz : 0 ≤ tz ∧ tz < nz) :
    0 ≤ tz * ny ∧ tz * ny ≤ tz * ny + ty ∧ tz * ny + ty ≤ (tz * ny + ty) * nx ∧
      (tz * ny + ty) * nx ≤ (tz * ny + ty) * nx + tx ∧
      (tz * ny + ty) * nx + tx < nx * ny * nz := by
  obtain ⟨hx0, hx1⟩ := hx
  obtain ⟨hy0, hy1⟩ := hy
  obtain ⟨hz0, hz1⟩ := hz
  have h1 : 0 ≤ tz * ny := mul_nonneg hz0 (by omega)
  have h2 : 0 ≤ tz * ny + ty := by omega
  have h3 : tz * ny + ty ≤ (tz * ny + ty) * nx := by
    have : (tz * ny + ty) * 1 ≤ (tz * ny + ty) * nx :=
      mul_le_mul_of_nonneg_left (by omega) h2
    omega
  have h4 : tz * ny ≤ (nz - 1) * ny := mul_le_mul_of_nonneg_right (by omega) (by omega)
  have h5 : (tz * ny + ty + 1) * nx ≤ (nz * ny) * nx :=
    mul_le_mul_of_nonneg_right (by linarith) (by omega)
  refine ⟨h1, by omega, h3, by omega, ?_⟩
  have h6 : nx * ny * nz = nz * ny * nx := by ring
  have h7 : (tz * ny + ty + 1) * nx = (tz * ny + ty) * nx + nx := by ring
  omega

theorem offset_eq {nx ny nz tx ty tz : Int}
    (hx : 0 ≤ tx ∧ tx < nx) (hy : 0 ≤ ty ∧ ty < ny) (hz : 0 ≤ tz ∧ tz < nz)
    (hsize : nx * ny * nz < 2147483648) :
    iadd (imul (iadd (imul tz ny) ty) nx) tx = (tz * ny + ty) * nx + tx := by
  obtain ⟨h1, h2, h3, h4, h5⟩ := offset_bounds hx hy hz
  have e1 : imul tz ny = tz * ny := wrap32_of_isInt32 ⟨by omega, by omega⟩
  have e2 : iadd (tz * ny) ty = tz * ny + ty := wrap32_of_isInt32 ⟨by omega, by omega⟩
  have e3 : imul (tz * ny + ty) nx = (tz * ny + ty) * nx :=
    wrap32_of_isInt32 ⟨by omega, by omega⟩
  have e4 : iadd ((tz * ny + ty) * nx) tx = (tz * ny + ty) * nx + tx :=
    wrap32_of_isInt32 ⟨by omega, by omega⟩
  rw [e1, e2, e3, e4]

theorem readCell_of_lt (cells : List Int) (off : Int) (h0 : 0 ≤ off)
    (h1 : off < cells.length) :
    ∃ id, readCell cells off = some id ∧ id ∈ cells := by
  have hlt : off.toNat < cells.length := by omega
  refine ⟨cells[off.toNat], ?_, List.getElem_mem _⟩
  unfold readCell
  rw [if_neg (by omega)]
  exact List.getElem?_eq_getElem hlt

theorem loadTextureAlbedo_grid {self : TextureAlbedoVolume} {stream : Stream}
    {st : TextureAlbedoVolume} {rest : Stream}
    (h : loadTextureAlbedo self stream = .ok (st, rest)) :
    0 ≤ imul (imul st.m_reso.x st.m_reso.y) st.m_reso.z ∧
      (st.m_spectrumId.length : Int) = imul (imul st.m_reso.x st.m_reso.y) st.m_reso.z ∧
      (∀ id ∈ st.m_spectrumId, (st.m_spectrumMap.find id).isSome = true) := by
  obtain ⟨reso, s1, n, s2, cat, s3, _, _, _, hg⟩ := loadTextureAlbedo_ok h
  obtain ⟨ids, h0, hr, hc, hst⟩ := loadGrid_ok hg
  obtain ⟨hl, hlen⟩ := readIntArray_ok _ _ _ _ hr
  subst hst
  refine ⟨h0, ?_, (checkSpectrumIds_ok_iff cat ids).mp hc⟩
  show (ids.length : Int) = imul (imul reso.x reso.y) reso.z
  rw [hl]
  omega

/-! ### Resolution of a voxel -/

theorem updateAlbedo_of_cell (self : TextureAlbedoVolume) (p : Point) (a : Spectrum)
    (id : Int) (hin : InBounds self p)
    (hcell : readCell self.m_spectrumId
      (iadd (imul (iadd (imul (floorToInt (self.m_worldToTexture.transformAffine p).z)
        self.m_reso.y) (floorToInt (self.m_worldToTexture.transformAffine p).y))
        self.m_reso.x) (floorToInt (self.m_worldToTexture.transformAffine p).x)) = some id) :
    updateAlbedo self p a =
      match self.m_spectrumMap.find id with
      | some s => some s
      | none => some a := by
  unfold InBounds at hin
  simp only [] at hin
  unfold updateAlbedo
  simp only []
  rw [if_neg (by omega)]
  simp only [hcell]

theorem lookupBundle_of_cell (self : TextureAlbedoVolume) (blk : VolumeDataSourceEx)
    (p : Point) (b : Bundle) (a a0 c : Spectrum) (id : Int)
    (hblk : self.m_block = some blk) (hreq : b.albedo = some a0)
    (ha : (blk.lookupBundle p b.cleared).albedo = some a) (hnz : a.isZero = false)
    (hin : InBounds self p)
    (hcell : readCell self.m_spectrumId
      (iadd (imul (iadd (imul (floorToInt (self.m_worldToTexture.transformAffine p).z)
        self.m_reso.y) (floorToInt (self.m_worldToTexture.transformAffine p).y))
        self.m_reso.x) (floorToInt (self.m_worldToTexture.transformAffine p).x)) = some id)
    (hfind : self.m_spectrumMap.find id = some c) :
    lookupBundle self p b = some { blk.lookupBundle p b.cleared with albedo := some c } := by
  rw [lookupBundle_of_nonzero self blk p b a a0 hblk hreq ha hnz,
    updateAlbedo_of_cell self p a id hin hcell, hfind]
  rfl

theorem configure_loaded {fs : String → Option Stream} {self cfg : TextureAlbedoVolume}
    (h : configure fs self = .ok cfg) (hfile : self.m_textureAlbedoFile ≠ "") :
    ∃ (st : TextureAlbedoVolume) (stream rest : Stream),
      fs self.m_textureAlbedoFile = some stream ∧
      loadTextureAlbedo self stream = .ok (st, rest) ∧
      cfg.m_reso = st.m_reso ∧ cfg.m_spectrumId = st.m_spectrumId ∧
      cfg.m_spectrumMap = st.m_spectrumMap := by
  obtain ⟨blk, self1, _, hcase, hcfg⟩ := configure_ok h
  rcases hcase with ⟨h0, _⟩ | ⟨_, stream, rest, hfs, hl⟩
  · exact absurd h0 hfile
  · subst hcfg
    exact ⟨self1, stream, rest, hfs, hl, rfl, rfl, rfl⟩

theorem configure_not_loaded {fs : String → Option Stream} {self cfg : TextureAlbedoVolume}
    (h : configure fs self = .ok cfg) (hfile : self.m_textureAlbedoFile = "") :
    cfg.m_reso = self.m_reso ∧ cfg.m_spectrumId = self.m_spectrumId ∧
      cfg.m_spectrumMap = self.m_spectrumMap := by
  obtain ⟨blk, self1, _, hcase, hcfg⟩ := configure_ok h
  rcases hcase with ⟨_, h1⟩ | ⟨h0, _⟩
  · subst hcfg h1
    exact ⟨rfl, rfl, rfl⟩
  · exact absurd hfile h0

/-! ### Files in the layout of the spec -/

theorem encodeWord_length (u : Nat) : (encodeWord u).length = 4 := rfl

theorem encodeInt_length (v : Int) : (encodeInt v).length = 4 := rfl

theorem encodeRecords_length (recs : List Record) :
    (encodeRecords recs).length = 16 * recs.length := by
  induction recs with
  | nil => rfl
  | cons rec recs ih =>
    simp only [encodeRecords, encodeRecord, encodeFloat, List.length_append, encodeInt_length,
      encodeWord_length, List.length_cons, ih]
    omega

theorem encodeInts_length (vs : List Int) : (encodeInts vs).length = 4 * vs.length := by
  induction vs with
  | nil => rfl
  | cons v vs ih =>
    simp only [encodeInts, List.length_append, encodeInt_length, List.length_cons, ih]
    omega

theorem encodeFile_length (reso : Vector3i) (count : Int) (recs : List Record)
    (grid : List Int) :
    (encodeFile reso count recs grid).length = 16 + 16 * recs.length + 4 * grid.length := by
  simp only [encodeFile, List.length_append, encodeInt_length, encodeRecords_length,
    encodeInts_length]
  omega

theorem loadTextureAlbedo_encodeFile (self : TextureAlbedoVolume) (reso : Vector3i)
    (recs : List Record) (grid : List Int) (tail : Stream)
    (hx : IsInt32 reso.x) (hy : IsInt32 reso.y) (hz : IsInt32 reso.z)
    (hn : recs.length < 2147483648) (hk : ∀ rec ∈ recs, IsInt32 rec.key) :
    loadTextureAlbedo self (encodeFile reso recs.length recs grid ++ tail) =
      loadGrid self reso recs.length (insertRecords self.m_spectrumMap recs)
        (encodeInts grid ++ tail) := by
  unfold encodeFile
  simp only [List.append_assoc]
  exact loadTextureAlbedo_layout self reso recs (encodeInts grid ++ tail) hx hy hz hn hk

theorem loadGrid_encodeInts (self : TextureAlbedoVolume) (reso : Vector3i) (n : Int)
    (cat : spectrum_map_t) (grid : List Int) (tail : Stream)
    (hlen : (grid.length : Int) = imul (imul reso.x reso.y) reso.z)
    (hgrid : ∀ v ∈ grid, IsInt32 v) :
    loadGrid self reso n cat (encodeInts grid ++ tail) =
      ((checkSpectrumIds cat grid) >>= fun _ =>
        (Except.ok ({ self with m_reso := reso, m_nSpectrumItems := n, m_spectrumMap := cat,
                                m_spectrumId := grid }, tail) :
          Except Error (TextureAlbedoVolume × Stream))) := by
  unfold loadGrid
  simp only []
  rw [if_neg (by omega)]
  have hnat : (imul (imul reso.x reso.y) reso.z).toNat = grid.length := by omega
  rw [hnat, readIntArray_encodeInts grid tail hgrid, ok_bind]
  rfl

theorem loadGrid_of_zero (self : TextureAlbedoVolume) (reso : Vector3i) (n : Int)
    (cat : spectrum_map_t) (stream : Stream)
    (h0 : imul (imul reso.x reso.y) reso.z = 0) :
    loadGrid self reso n cat stream =
      .ok ({ self with m_reso := reso, m_nSpectrumItems := n, m_spectrumMap := cat,
                       m_spectrumId := [] }, stream) := by
  unfold loadGrid
  simp only []
  rw [h0, if_neg (by omega)]
  rfl

theorem loadGrid_of_neg (self : TextureAlbedoVolume) (reso : Vector3i) (n : Int)
    (cat : spectrum_map_t) (stream : Stream)
    (h0 : imul (imul reso.x reso.y) reso.z < 0) :
    loadGrid self reso n cat stream = .error .badAlloc := by
  unfold loadGrid
  simp only []
  rw [if_pos h0]

theorem firstRecord_append (k : Int) (pre : List Record) (r1 : Record) (post : List Record)
    (hpre : ∀ r ∈ pre, r.key ≠ k) (hk : r1.key = k) :
    firstRecord k (pre ++ r1 :: post) = some r1 := by
  induction pre with
  | nil => simp [firstRecord, hk]
  | cons r pre ih =>
    have h1 : r.key ≠ k := hpre r (List.mem_cons_self _ _)
    have h2 : ∀ q ∈ pre, q.key ≠ k := fun q hq => hpre q (List.mem_cons_of_mem _ hq)
    simp [firstRecord, h1, ih h2]

theorem firstRecord_isSome_iff (k : Int) (recs : List Record) :
    (firstRecord k recs).isSome = true ↔ ∃ rec ∈ recs, rec.key = k := by
  induction recs with
  | nil => simp [firstRecord]
  | cons r recs ih =>
    by_cases h : r.key = k
    · simp [firstRecord, h]
    · simp [firstRecord, h, ih]

theorem find_insertRecords_nil (recs : List Record) (k : Int) :
    spectrum_map_t.find (insertRecords [] recs) k = (firstRecord k recs).map Record.colour := by
  rw [find_insertRecords]
  rfl

theorem origin_transformAffine (reso : Vector3i) (hi : Point) :
    (worldToTexture reso ⟨⟨0, 0, 0⟩, hi⟩).transformAffine ⟨0, 0, 0⟩ = ⟨0, 0, 0⟩ := by
  simp [worldToTexture, Transform.transformAffine, Transform.mul, Transform.scale,
    Transform.translate, AABB.getExtents]

theorem loadGrid_encodeInts_ok (self : TextureAlbedoVolume) (reso : Vector3i) (n : Int)
    (cat : spectrum_map_t) (grid : List Int) (tail : Stream)
    (hlen : (grid.length : Int) = imul (imul reso.x reso.y) reso.z)
    (hgrid : ∀ v ∈ grid, IsInt32 v)
    (hvalid : ∀ v ∈ grid, (cat.find v).isSome = true) :
    loadGrid self reso n cat (encodeInts grid ++ tail) =
      .ok ({ self with m_reso := reso, m_nSpectrumItems := n, m_spectrumMap := cat,
                       m_spectrumId := grid }, tail) := by
  rw [loadGrid_encodeInts self reso n cat grid tail hlen hgrid,
    (checkSpectrumIds_ok_iff cat grid).mpr hvalid, ok_bind]

theorem loadGrid_encodeInts_error (self : TextureAlbedoVolume) (reso : Vector3i) (n : Int)
    (cat : spectrum_map_t) (grid : List Int) (tail : Stream) (e : Error)
    (hlen : (grid.length : Int) = imul (imul reso.x reso.y) reso.z)
    (hgrid : ∀ v ∈ grid, IsInt32 v)
    (herr : checkSpectrumIds cat grid = .error e) :
    loadGrid self reso n cat (encodeInts grid ++ tail) = .error e := by
  rw [loadGrid_encodeInts self reso n cat grid tail hlen hgrid, herr, error_bind]

theorem imul_imul_of_lt {x y z : Int} (h0 : 0 ≤ x * y * z) (h1 : x * y * z < 2147483648) :
    imul (imul x y) z = x * y * z := by
  rw [imul_imul]
  exact wrap32_of_isInt32 ⟨by omega, h1⟩

theorem loadTextureAlbedo_wide (self : TextureAlbedoVolume) (recs : List Record)
    (grid : List Int) (hn : recs.length < 2147483648) (hk : ∀ rec ∈ recs, IsInt32 rec.key) :
    loadTextureAlbedo self (encodeFile ⟨65536, 65536, 1⟩ recs.length recs grid) =
      .ok ({ self with m_reso := ⟨65536, 65536, 1⟩, m_nSpectrumItems := recs.length,
                       m_spectrumMap := insertRecords self.m_spectrumMap recs,
                       m_spectrumId := [] }, encodeInts grid) := by
  have hl := loadTextureAlbedo_encodeFile self ⟨65536, 65536, 1⟩ recs grid []
    (by decide) (by decide) (by decide) hn hk
  simp only [List.append_nil] at hl
  rw [hl]
  exact loadGrid_of_zero self ⟨65536, 65536, 1⟩ _ _ _ (by decide)

theorem lookupBundle_of_not_requested (self : TextureAlbedoVolume)
    (blk : VolumeDataSourceEx) (p : Point) (b : Bundle) (hblk : self.m_block = some blk)
    (hreq : b.albedo = none) :
    lookupBundle self p b = some (blk.lookupBundle p b.cleared) := by
  unfold lookupBundle
  rw [hblk]
  simp only [hreq]

/-! ### Children -/

theorem addChildren_of_held (baseAddChild : TextureAlbedoVolume → String →
    Except Error TextureAlbedoVolume) (children : List (String × VolumeDataSourceEx)) :
    ∀ (self : TextureAlbedoVolume) (blk : VolumeDataSourceEx), self.m_block = some blk →
      (addChildren baseAddChild self
        (children.map (fun c => (c.1, ConfigurableObject.volume c.2)))).m_block = some blk := by
  induction children with
  | nil => intro self blk h; exact h
  | cons c cs ih =>
    intro self blk h
    simp only [List.map_cons, addChildren, addChild, h]
    exact ih self blk h

/-! ### Cells and the frame of a bundle lookup -/

theorem wide_transformAffine (x y z : ℚ) :
    (worldToTexture ⟨65536, 65536, 1⟩ ⟨⟨0, 0, 0⟩, ⟨65536, 65536, 1⟩⟩).transformAffine ⟨x, y, z⟩ =
      ⟨x, y, z⟩ := by
  simp [worldToTexture, Transform.transformAffine, Transform.mul, Transform.scale,
    Transform.translate, AABB.getExtents]

theorem configure_cell {fs : String → Option Stream} {self cfg : TextureAlbedoVolume}
    (hcfg : configure fs self = .ok cfg) (hfile : self.m_textureAlbedoFile ≠ "")
    (p : Point) (hin : InBounds cfg p)
    (hsize : cfg.m_reso.x * cfg.m_reso.y * cfg.m_reso.z < 2147483648) :
    (cfg.m_spectrumId.length : Int) = cfg.m_reso.x * cfg.m_reso.y * cfg.m_reso.z ∧
    ∃ (id : Int) (c : Spectrum),
      readCell cfg.m_spectrumId
        (iadd (imul (iadd (imul (floorToInt (cfg.m_worldToTexture.transformAffine p).z)
          cfg.m_reso.y) (floorToInt (cfg.m_worldToTexture.transformAffine p).y))
          cfg.m_reso.x) (floorToInt (cfg.m_worldToTexture.transformAffine p).x)) = some id ∧
      cfg.m_spectrumMap.find id = some c := by
  obtain ⟨st, stream, rest, _, hl, hr, hi, hm⟩ := configure_loaded hcfg hfile
  obtain ⟨_, hlen, hkeys⟩ := loadTextureAlbedo_grid hl
  rw [← hr, ← hi] at hlen
  rw [← hi, ← hm] at hkeys
  unfold InBounds at hin
  simp only [] at hin
  obtain ⟨hx, hy, hz⟩ := hin
  obtain ⟨_, _, _, _, o5⟩ := offset_bounds hx hy hz
  have hoff := offset_eq hx hy hz hsize
  have hnn : 0 ≤ cfg.m_reso.x * cfg.m_reso.y * cfg.m_reso.z := by omega
  have hprod : imul (imul cfg.m_reso.x cfg.m_reso.y) cfg.m_reso.z =
      cfg.m_reso.x * cfg.m_reso.y * cfg.m_reso.z :=
    imul_imul_of_lt hnn hsize
  rw [hprod] at hlen
  refine ⟨hlen, ?_⟩
  rw [hoff]
  have hlt : (floorToInt (cfg.m_worldToTexture.transformAffine p).z * cfg.m_reso.y +
      floorToInt (cfg.m_worldToTexture.transformAffine p).y) * cfg.m_reso.x +
      floorToInt (cfg.m_worldToTexture.transformAffine p).x < cfg.m_spectrumId.length := by
    rw [hlen]; exact o5
  obtain ⟨id, hcell, hmem⟩ := readCell_of_lt cfg.m_spectrumId _ (by omega) hlt
  have hsome := hkeys id hmem
  cases hfind : cfg.m_spectrumMap.find id with
  | none => rw [hfind] at hsome; cases hsome
  | some c => exact ⟨id, c, hcell, hfind⟩

theorem configure_keys {fs : String → Option Stream} {self cfg : TextureAlbedoVolume}
    (hcfg : configure fs self = .ok cfg) (hfile : self.m_textureAlbedoFile ≠ "") :
    0 ≤ imul (imul cfg.m_reso.x cfg.m_reso.y) cfg.m_reso.z ∧
    (cfg.m_spectrumId.length : Int) = imul (imul cfg.m_reso.x cfg.m_reso.y) cfg.m_reso.z ∧
    ∀ id ∈ cfg.m_spectrumId, (cfg.m_spectrumMap.find id).isSome = true := by
  obtain ⟨st, stream, rest, _, hl, hr, hi, hm⟩ := configure_loaded hcfg hfile
  obtain ⟨h0, hlen, hkeys⟩ := loadTextureAlbedo_grid hl
  rw [← hr] at h0
  rw [← hr, ← hi] at hlen
  rw [← hi, ← hm] at hkeys
  exact ⟨h0, hlen, hkeys⟩

theorem lookupBundle_of_no_albedo (self : TextureAlbedoVolume) (blk : VolumeDataSourceEx)
    (p : Point) (b : Bundle) (hblk : self.m_block = some blk)
    (ha : (blk.lookupBundle p b.cleared).albedo = none) :
    lookupBundle self p b = some (blk.lookupBundle p b.cleared) := by
  unfold lookupBundle
  rw [hblk]
  simp only [ha]
  cases b.albedo <;> rfl

theorem readCatalog_short : ∀ (n : Nat) (m : spectrum_map_t) (s : Stream),
    s.length < 16 * n → readCatalog n m s = .error .endOfStream := by
  intro n
  induction n with
  | zero => intro m s h; omega
  | succ n ih =>
    intro m s h
    match s with
    | b0 :: b1 :: b2 :: b3 :: b4 :: b5 :: b6 :: b7 :: b8 :: b9 :: b10 :: b11 :: b12 :: b13 ::
        b14 :: b15 :: rest =>
      simp only [List.length_cons] at h
      simp only [readCatalog, readInt, readFloat, ok_bind]
      exact ih _ rest (by omega)
    | [] => rfl
    | [_] => rfl
    | [_, _] => rfl
    | [_, _, _] => rfl
    | [_, _, _, _] => rfl
    | [_, _, _, _, _] => rfl
    | [_, _, _, _, _, _] => rfl
    | [_, _, _, _, _, _, _] => rfl
    | [_, _, _, _, _, _, _, _] => rfl
    | [_, _, _, _, _, _, _, _, _] => rfl
    | [_, _, _, _, _, _, _, _, _, _] => rfl
    | [_, _, _, _, _, _, _, _, _, _, _] => rfl
    | [_, _, _, _, _, _, _, _, _, _, _, _] => rfl
    | [_, _, _, _, _, _, _, _, _, _, _, _, _] => rfl
    | [_, _, _, _, _, _, _, _, _, _, _, _, _, _] => rfl
    | [_, _, _, _, _, _, _, _, _, _, _, _, _, _, _] => rfl

theorem toSizeT_of_neg {n : Int} (hn : n < 0) (h32 : IsInt32 n) :
    18446744071562067968 ≤ toSizeT n ∧ (toSizeT n : Int) = n + 18446744073709551616 := by
  unfold IsInt32 at h32
  unfold toSizeT
  omega

theorem offset_injective {nx ny : Int} {tx ty tz tx2 ty2 tz2 : Int}
    (hx : 0 ≤ tx ∧ tx < nx) (hy : 0 ≤ ty ∧ ty < ny)
    (hx2 : 0 ≤ tx2 ∧ tx2 < nx) (hy2 : 0 ≤ ty2 ∧ ty2 < ny)
    (h : (tz * ny + ty) * nx + tx = (tz2 * ny + ty2) * nx + tx2) :
    tx = tx2 ∧ ty = ty2 ∧ tz = tz2 := by
  have key : ∀ (n a r a2 r2 : Int), 0 ≤ r → r < n → 0 ≤ r2 → r2 < n →
      a * n + r = a2 * n + r2 → a = a2 ∧ r = r2 := by
    intro n a r a2 r2 h0 h1 h2 h3 he
    have hd : (a - a2) * n = r2 - r := by linarith
    have ha : a = a2 := by
      by_contra hne
      rcases lt_or_gt_of_ne hne with hlt | hgt
      · have h5 : (a2 - a) * n ≥ 1 * n := mul_le_mul_of_nonneg_right (by omega) (by omega)
        have h6 : (a2 - a) * n = r - r2 := by linarith
        omega
      · have h5 : (a - a2) * n ≥ 1 * n := mul_le_mul_of_nonneg_right (by omega) (by omega)
        omega
    subst ha
    exact ⟨rfl, by omega⟩
  obtain ⟨h1, h2⟩ := key nx _ tx _ tx2 hx.1 hx.2 hx2.1 hx2.2 h
  obtain ⟨h3, h4⟩ := key ny tz ty tz2 ty2 hy.1 hy.2 hy2.1 hy2.2 h1
  exact ⟨h2, h4, h3⟩

theorem lookupBundle_frame (self : TextureAlbedoVolume) (blk : VolumeDataSourceEx)
    (p : Point) (b out : Bundle) (hblk : self.m_block = some blk)
    (h : lookupBundle self p b = some out) :
    out.density = (blk.lookupBundle p b.cleared).density ∧
      out.direction = (blk.lookupBundle p b.cleared).direction ∧
      out.gloss = (blk.lookupBundle p b.cleared).gloss := by
  cases hreq : b.albedo with
  | none =>
    rw [lookupBundle_of_not_requested self blk p b hblk hreq] at h
    cases h
    exact ⟨rfl, rfl, rfl⟩
  | some a0 =>
    cases ha : (blk.lookupBundle p b.cleared).albedo with
    | none =>
      rw [lookupBundle_of_no_albedo self blk p b hblk ha] at h
      cases h
      exact ⟨rfl, rfl, rfl⟩
    | some a =>
      cases hz : a.isZero with
      | true =>
        rw [lookupBundle_of_zero self blk p b a hblk ha hz] at h
        cases h
        exact ⟨rfl, rfl, rfl⟩
      | false =>
        rw [lookupBundle_of_nonzero self blk p b a a0 hblk hreq ha hz] at h
        cases hu : updateAlbedo self p a with
        | none => rw [hu] at h; cases h
        | some s =>
          rw [hu] at h
          simp only [Option.map_some', Option.some.injEq] at h
          rw [← h]
          exact ⟨rfl, rfl, rfl⟩

/-! ## The claims -/

/-- Round-trip catalog resolution where the `int` product of line 97 does not overflow:
in a state produced by `configure` with a texture file (so by a successful
`loadTextureAlbedo`), for a point `p` whose floored texture coordinate `(tx, ty, tz)` is
inside the grid, a requested albedo slot and a non-zero albedo of the wrapped volume,
and with `nx * ny * nz < 2^31`, the grid cell at the offset `(tz*ny + ty)*nx + tx`
exists, its value is a key of the catalog, and the albedo returned by `lookupBundle` is
the catalog colour of that value. -/
theorem roundtrip_catalog_resolution (fs : String → Option Stream)
    (self cfg : TextureAlbedoVolume) (blk : VolumeDataSourceEx) (p : Point) (b : Bundle)
    (a a0 : Spectrum) (tx ty tz : Int)
    (hcfg : configure fs self = .ok cfg) (hfile : self.m_textureAlbedoFile ≠ "")
    (hblk : self.m_block = some blk) (hreq : b.albedo = some a0)
    (ha : (blk.lookupBundle p b.cleared).albedo = some a) (hnz : a.isZero = false)
    (htx : tx = floorToInt (cfg.m_worldToTexture.transformAffine p).x)
    (hty : ty = floorToInt (cfg.m_worldToTexture.transformAffine p).y)
    (htz : tz = floorToInt (cfg.m_worldToTexture.transformAffine p).z)
    (hx : 0 ≤ tx ∧ tx < cfg.m_reso.x) (hy : 0 ≤ ty ∧ ty < cfg.m_reso.y)
    (hz : 0 ≤ tz ∧ tz < cfg.m_reso.z)
    (hsize : cfg.m_reso.x * cfg.m_reso.y * cfg.m_reso.z < 2147483648) :
    ∃ (id : Int) (c : Spectrum),
      cfg.m_spectrumId[((tz * cfg.m_reso.y + ty) * cfg.m_reso.x + tx).toNat]? = some id ∧
      cfg.m_spectrumMap.find id = some c ∧
      lookupBundle cfg p b = some { blk.lookupBundle p b.cleared with albedo := some c } := by
  obtain ⟨st, stream, rest, _, hl, hr, hi, hm⟩ := configure_loaded hcfg hfile
  obtain ⟨_, hlen, hkeys⟩ := loadTextureAlbedo_grid hl
  rw [← hr, ← hi] at hlen
  rw [← hi, ← hm] at hkeys
  obtain ⟨_, _, _, _, o5⟩ := offset_bounds hx hy hz
  have hoff := offset_eq hx hy hz hsize
  have hprod : imul (imul cfg.m_reso.x cfg.m_reso.y) cfg.m_reso.z =
      cfg.m_reso.x * cfg.m_reso.y * cfg.m_reso.z := by
    rw [imul_imul]
    exact wrap32_of_isInt32 ⟨by omega, by omega⟩
  have hlt : (tz * cfg.m_reso.y + ty) * cfg.m_reso.x + tx < cfg.m_spectrumId.length := by
    rw [hlen, hprod]; exact o5
  obtain ⟨id, hcell, hmem⟩ := readCell_of_lt cfg.m_spectrumId _ (by omega) hlt
  have hsome := hkeys id hmem
  cases hfind : cfg.m_spectrumMap.find id with
  | none => rw [hfind] at hsome; cases hsome
  | some c =>
    refine ⟨id, c, ?_, hfind, ?_⟩
    · unfold readCell at hcell
      rw [if_neg (by omega)] at hcell
      exact hcell
    · have hb : cfg.m_block = some blk := by rw [configure_block hcfg, hblk]
      have hin : InBounds cfg p := by
        unfold InBounds
        simp only []
        rw [← htx, ← hty, ← htz]
        exact ⟨hx, hy, hz⟩
      apply lookupBundle_of_cell cfg blk p b a a0 c id hb hreq ha hnz hin _ hfind
      rw [← htx, ← hty, ← htz, hoff]
      exact hcell

/-- Example of the round trip: the point `(1, 0, 0)` of the example lies in the voxel
with offset `1`, which stores `9`, and the albedo returned is the green of the catalog. -/
theorem roundtrip_catalog_resolution_witness :
    ∃ (id : Int) (c : Spectrum),
      demoCfg.m_spectrumId[((0 * demoCfg.m_reso.y + 0) * demoCfg.m_reso.x + 1).toNat]? =
        some id ∧
      demoCfg.m_spectrumMap.find id = some c ∧
      lookupBundle demoCfg ⟨1, 0, 0⟩ demoRequest =
        some { demoBlock.lookupBundle ⟨1, 0, 0⟩ demoRequest.cleared with albedo := some c } :=
  roundtrip_catalog_resolution demoFs demoSelf demoCfg demoBlock ⟨1, 0, 0⟩ demoRequest
    demoWhite Spectrum.zero 1 0 0 rfl (by decide) rfl rfl rfl (by decide)
    (by simp [demoCfg, demo_transformAffine, floorToInt])
    (by simp [demoCfg, demo_transformAffine, floorToInt])
    (by simp [demoCfg, demo_transformAffine, floorToInt])
    (by decide) (by decide) (by decide) (by decide)

/-- C1 (code defect). Round-trip catalog resolution says that after a successful
`loadTextureAlbedo` an in-bounds lookup with a non-zero delegated albedo returns
`catalog[grid[(tz*ny + ty)*nx + tx]]`. The code breaks it through the unchecked `int`
product of line 97: the header `65536 x 65536 x 1` makes the product wrap to `0`,
`loadTextureAlbedo` succeeds with a grid of no cell, the point `(0, 0, 0)` floors to the
texel `(0, 0, 0)`, which passes the bounds test of line 169, the wrapped volume returns
a non-zero albedo, and the read of line 172 falls outside the allocated block, so no
catalog colour is returned. The file used holds no grid byte; a file that carries all
`2^32` grid values loads to the same grid of no cell. The box is
`[0,65536] x [0,65536] x [0,1]`, so the scale factors are `1` and the arithmetic of the
transform is exact in single precision as well. -/
theorem roundtrip_catalog_resolution_failing_input :
    configure wideFs wideSelf = .ok wideCfg ∧
      wideSelf.m_textureAlbedoFile ≠ "" ∧
      (wideBlock.lookupBundle ⟨0, 0, 0⟩ demoRequest.cleared).albedo = some demoWhite ∧
      demoWhite.isZero = false ∧
      InBounds wideCfg ⟨0, 0, 0⟩ ∧
      wideCfg.m_spectrumId = [] ∧
      lookupBundle wideCfg ⟨0, 0, 0⟩ demoRequest = none ∧
      ∃ st rest,
        loadTextureAlbedo wideSelf
          (encodeFile ⟨65536, 65536, 1⟩ 1 [demoRed] (List.replicate 4294967296 7)) =
          .ok (st, rest) ∧
        st.m_spectrumId = [] := by
  refine ⟨rfl, by decide, rfl, by decide, ?_, rfl, ?_,
    ⟨_, _, loadTextureAlbedo_wide wideSelf [demoRed] _ (by decide) (by decide), rfl⟩⟩
  · simp [InBounds, wideCfg, origin_transformAffine, floorToInt]
  · simp [lookupBundle, updateAlbedo, wideCfg, origin_transformAffine, floorToInt, wideSelf,
      wideBlock, demoBlock, demoRequest, Bundle.cleared, demoWhite, Spectrum.isZero,
      F32.isZero, readCell]
    decide

/-- Invalid grid index is fatal where the `int` product of line 97 does not overflow:
for a file in the layout of the spec whose grid section holds `nx * ny * nz` values with
`nx * ny * nz < 2^31`,
`loadTextureAlbedo` fails if and only if some grid value is not a key of the catalog
built from the records; the error then cites the first such value in file order; and
when every value is a key the load succeeds and stores the grid values unchanged. -/
theorem invalid_grid_index_fatal (self : TextureAlbedoVolume) (reso : Vector3i)
    (recs : List Record) (grid : List Int)
    (hx : IsInt32 reso.x) (hy : IsInt32 reso.y) (hz : IsInt32 reso.z)
    (hn : recs.length < 2147483648) (hk : ∀ rec ∈ recs, IsInt32 rec.key)
    (hgrid : ∀ v ∈ grid, IsInt32 v)
    (hlen : (grid.length : Int) = reso.x * reso.y * reso.z)
    (hsize : reso.x * reso.y * reso.z < 2147483648) :
    ((∃ e, loadTextureAlbedo self (encodeFile reso recs.length recs grid) = .error e) ↔
        ∃ v ∈ grid, (insertRecords self.m_spectrumMap recs).find v = none) ∧
    (∀ (good : List Int) (bad : Int) (rest : List Int), grid = good ++ bad :: rest →
        (∀ v ∈ good, ((insertRecords self.m_spectrumMap recs).find v).isSome = true) →
        (insertRecords self.m_spectrumMap recs).find bad = none →
        loadTextureAlbedo self (encodeFile reso recs.length recs grid) =
          .error (.invalidSpectrumId bad)) ∧
    ((∀ v ∈ grid, ((insertRecords self.m_spectrumMap recs).find v).isSome = true) →
        loadTextureAlbedo self (encodeFile reso recs.length recs grid) =
          .ok ({ self with m_reso := reso, m_nSpectrumItems := recs.length,
                           m_spectrumMap := insertRecords self.m_spectrumMap recs,
                           m_spectrumId := grid }, [])) := by
  have hl := loadTextureAlbedo_encodeFile self reso recs grid [] hx hy hz hn hk
  rw [List.append_nil] at hl
  have hlen2 : (grid.length : Int) = imul (imul reso.x reso.y) reso.z := by
    rw [imul_imul_of_lt (by omega) hsize]; exact hlen
  have hok : (∀ v ∈ grid, ((insertRecords self.m_spectrumMap recs).find v).isSome = true) →
      loadTextureAlbedo self (encodeFile reso recs.length recs grid) =
        .ok ({ self with m_reso := reso, m_nSpectrumItems := recs.length,
                         m_spectrumMap := insertRecords self.m_spectrumMap recs,
                         m_spectrumId := grid }, []) := by
    intro hv
    rw [hl]
    exact loadGrid_encodeInts_ok self reso _ _ grid [] hlen2 hgrid hv
  have herr : ∀ e, checkSpectrumIds (insertRecords self.m_spectrumMap recs) grid = .error e →
      loadTextureAlbedo self (encodeFile reso recs.length recs grid) = .error e := by
    intro e he
    rw [hl]
    exact loadGrid_encodeInts_error self reso _ _ grid [] e hlen2 hgrid he
  refine ⟨⟨?_, ?_⟩, ?_, hok⟩
  · rintro ⟨e, he⟩
    by_contra hno
    have hall : ∀ v ∈ grid,
        ((insertRecords self.m_spectrumMap recs).find v).isSome = true := by
      intro v hv
      cases hf : (insertRecords self.m_spectrumMap recs).find v with
      | none => exact absurd ⟨v, hv, hf⟩ hno
      | some c => rfl
    rw [hok hall] at he
    cases he
  · rintro ⟨v, hv, hf⟩
    cases hc : checkSpectrumIds (insertRecords self.m_spectrumMap recs) grid with
    | error e => exact ⟨e, herr e hc⟩
    | ok u =>
      have := (checkSpectrumIds_ok_iff _ grid).mp hc v hv
      rw [hf] at this
      cases this
  · intro good bad rest hg hgood hbad
    apply herr
    rw [hg]
    exact checkSpectrumIds_error _ good bad rest hgood hbad

/-- Example of a rejected grid: the 2 x 1 x 1 file with the catalog keys `7`, `9` and the
grid `[7, 5]` is rejected with the value `5`. -/
theorem invalid_grid_index_fatal_witness :
    loadTextureAlbedo demoSelf (encodeFile ⟨2, 1, 1⟩ 2 [demoRed, demoGreen] [7, 5]) =
      .error (.invalidSpectrumId 5) :=
  (invalid_grid_index_fatal demoSelf ⟨2, 1, 1⟩ [demoRed, demoGreen] [7, 5]
    (by decide) (by decide) (by decide) (by decide) (by decide) (by decide) (by decide)
    (by decide)).2.1 [7] 5 [] rfl (by decide) (by decide)

/-- C2 (code defect). Invalid grid index is fatal says that `loadTextureAlbedo` fails
as soon as one of the `nx * ny * nz` grid values is not a key of the catalog. The code
breaks it through the unchecked `int` product of line 97: for a file in the layout of
the spec with the header `65536 x 65536 x 1`, the catalog `7 -> red` and
`65536 * 65536 * 1 = 2^32` grid values that are all `5`, not a key of the catalog, the
product wraps to `0`, the validation loop of lines 99-104 runs over no value, and
`loadTextureAlbedo` succeeds. -/
theorem invalid_grid_index_failing_input :
    ((List.replicate 4294967296 (5 : Int)).length : Int) = 65536 * 65536 * 1 ∧
      (∀ v ∈ List.replicate 4294967296 (5 : Int),
        (insertRecords wideSelf.m_spectrumMap [demoRed]).find v = none) ∧
      ∃ st rest,
        loadTextureAlbedo wideSelf
          (encodeFile ⟨65536, 65536, 1⟩ 1 [demoRed] (List.replicate 4294967296 5)) =
        .ok (st, rest) := by
  refine ⟨?_, ?_, ?_⟩
  · rw [List.length_replicate]; rfl
  · intro v hv
    rw [List.eq_of_mem_replicate hv]
    decide
  · exact ⟨_, _, loadTextureAlbedo_wide wideSelf [demoRed] _ (by decide) (by decide)⟩

/-- C3 (amended). Duplicate catalog index: for a file in the layout of the spec whose
catalog section holds `r1` as its first record with the key `k`, whatever records follow
(records with the same key `k` and another colour included), the catalog built by
`loadTextureAlbedo` maps `k` to the colour of `r1` (`std::map::insert` does not
replace), and that colour is the albedo a bundle lookup returns for an in-bounds voxel
storing `k`. -/
theorem duplicate_index_keeps_first (fs : String → Option Stream)
    (self cfg : TextureAlbedoVolume) (blk : VolumeDataSourceEx)
    (reso : Vector3i) (pre later : List Record) (r1 : Record) (grid : List Int) (k : Int)
    (hcfg : configure fs self = .ok cfg) (hfile : self.m_textureAlbedoFile ≠ "")
    (hfs : fs self.m_textureAlbedoFile =
      some (encodeFile reso (pre ++ r1 :: later).length (pre ++ r1 :: later) grid))
    (hempty : self.m_spectrumMap = []) (hblk : self.m_block = some blk)
    (hx : IsInt32 reso.x) (hy : IsInt32 reso.y) (hz : IsInt32 reso.z)
    (hn : (pre ++ r1 :: later).length < 2147483648)
    (hkeys : ∀ rec ∈ pre ++ r1 :: later, IsInt32 rec.key)
    (hpre : ∀ rec ∈ pre, rec.key ≠ k) (hk1 : r1.key = k) :
    cfg.m_spectrumMap.find k = some r1.colour ∧
    ∀ (p : Point) (b : Bundle) (a a0 : Spectrum),
      b.albedo = some a0 → (blk.lookupBundle p b.cleared).albedo = some a →
      a.isZero = false → InBounds cfg p →
      readCell cfg.m_spectrumId
        (iadd (imul (iadd (imul (floorToInt (cfg.m_worldToTexture.transformAffine p).z)
          cfg.m_reso.y) (floorToInt (cfg.m_worldToTexture.transformAffine p).y))
          cfg.m_reso.x) (floorToInt (cfg.m_worldToTexture.transformAffine p).x)) = some k →
      lookupBundle cfg p b =
        some { blk.lookupBundle p b.cleared with albedo := some r1.colour } := by
  obtain ⟨st, stream, rest, hs, hl, _, _, hm⟩ := configure_loaded hcfg hfile
  rw [hfs] at hs
  cases hs
  have hl2 := loadTextureAlbedo_encodeFile self reso (pre ++ r1 :: later) grid [] hx hy hz hn
    hkeys
  rw [List.append_nil] at hl2
  rw [hl2] at hl
  obtain ⟨ids, _, _, _, hst⟩ := loadGrid_ok hl
  have hcat : cfg.m_spectrumMap = insertRecords [] (pre ++ r1 :: later) := by
    rw [hm, hst, hempty]
  have hfind : cfg.m_spectrumMap.find k = some r1.colour := by
    rw [hcat, find_insertRecords_nil, firstRecord_append k pre r1 later hpre hk1]
    rfl
  refine ⟨hfind, ?_⟩
  intro p b a a0 hreq ha hnz hin hcell
  have hb : cfg.m_block = some blk := by rw [configure_block hcfg, hblk]
  exact lookupBundle_of_cell cfg blk p b a a0 r1.colour k hb hreq ha hnz hin hcell hfind

/-- Witness of C3 (amended): the file `dupFile` holds the key `7` first with red and then
with blue; the catalog keeps red, and red is the albedo of its only voxel. -/
theorem duplicate_index_keeps_first_witness :
    dupCfg.m_spectrumMap.find 7 = some demoRed.colour ∧
      lookupBundle dupCfg ⟨0, 0, 0⟩ demoRequest =
        some { unitBlock.lookupBundle ⟨0, 0, 0⟩ demoRequest.cleared with
                 albedo := some demoRed.colour } :=
  have h := duplicate_index_keeps_first dupFs dupSelf dupCfg unitBlock ⟨1, 1, 1⟩ []
    [dupLater] demoRed [7] 7 rfl (by decide) rfl rfl rfl (by decide) (by decide)
    (by decide) (by decide) (by decide) (by decide) rfl
  ⟨h.1, h.2 ⟨0, 0, 0⟩ demoRequest demoWhite Spectrum.zero rfl rfl (by decide)
    (by simp [InBounds, dupCfg, origin_transformAffine, floorToInt])
    (by simp [dupCfg, origin_transformAffine, floorToInt]; decide)⟩

/-- Counterexample to C3 as stated: in `dupFile` the key `7` comes first with red and
later with a different colour, blue; the catalog built by the load maps `7` to red, not
to the later blue, and red is what the bundle lookup returns for the voxel storing `7`. -/
theorem duplicate_index_counterexample :
    configure dupFs dupSelf = .ok dupCfg ∧
      dupFile = encodeFile ⟨1, 1, 1⟩ 2 [demoRed, dupLater] [7] ∧
      demoRed.key = dupLater.key ∧ demoRed.colour ≠ dupLater.colour ∧
      dupCfg.m_spectrumMap.find 7 ≠ some dupLater.colour ∧
      (lookupBundle dupCfg ⟨0, 0, 0⟩ demoRequest).map Bundle.albedo ≠
        some (some dupLater.colour) := by
  refine ⟨rfl, rfl, rfl, by decide, by decide, ?_⟩
  simp [lookupBundle, updateAlbedo, dupCfg, origin_transformAffine, floorToInt, dupSelf,
    unitBlock, demoBlock, demoRequest, Bundle.cleared, demoWhite, Spectrum.isZero,
    F32.isZero, readCell, iadd, imul, wrap32, spectrum_map_t.find]
  decide

/-- C4. Out-of-bounds pass-through: when the floored texture coordinate of `p` lies
outside `[0,nx) x [0,ny) x [0,nz)` on some axis, `lookupBundle` has a result (no error)
and every slot of it, the albedo included, is what the wrapped volume produced. -/
theorem out_of_bounds_pass_through (self : TextureAlbedoVolume) (blk : VolumeDataSourceEx)
    (p : Point) (b : Bundle) (tx ty tz : Int)
    (hblk : self.m_block = some blk)
    (htx : tx = floorToInt (self.m_worldToTexture.transformAffine p).x)
    (hty : ty = floorToInt (self.m_worldToTexture.transformAffine p).y)
    (htz : tz = floorToInt (self.m_worldToTexture.transformAffine p).z)
    (hout : tx < 0 ∨ tx ≥ self.m_reso.x ∨ ty < 0 ∨ ty ≥ self.m_reso.y ∨
            tz < 0 ∨ tz ≥ self.m_reso.z) :
    lookupBundle self p b = some (blk.lookupBundle p b.cleared) := by
  apply lookupBundle_of_not_inBounds self blk p b hblk
  unfold InBounds
  simp only []
  subst htx hty htz
  omega

/-- Witness of C4: the point `(2, 0, 0)` of the example floors to the texel `(2, 0, 0)`,
outside the 2 x 1 x 1 grid, and the albedo stays the white of the wrapped volume. -/
theorem out_of_bounds_pass_through_witness :
    lookupBundle demoCfg ⟨2, 0, 0⟩ demoRequest =
      some (demoBlock.lookupBundle ⟨2, 0, 0⟩ demoRequest.cleared) :=
  out_of_bounds_pass_through demoCfg demoBlock ⟨2, 0, 0⟩ demoRequest 2 0 0 rfl
    (by simp [demoCfg, demo_transformAffine, floorToInt])
    (by simp [demoCfg, demo_transformAffine, floorToInt])
    (by simp [demoCfg, demo_transformAffine, floorToInt])
    (by simp [demoCfg, demoLoaded])

/-- C5. Zero-albedo suppression: when the wrapped volume leaves the albedo slot at a
zero colour, `lookupBundle` returns the slots of the wrapped volume unchanged, so its
albedo is that zero colour, whatever the grid and the catalog hold for the point. -/
theorem zero_albedo_suppression (self : TextureAlbedoVolume) (blk : VolumeDataSourceEx)
    (p : Point) (b : Bundle) (a : Spectrum)
    (hblk : self.m_block = some blk)
    (ha : (blk.lookupBundle p b.cleared).albedo = some a) (hz : a.isZero = true) :
    lookupBundle self p b = some (blk.lookupBundle p b.cleared) ∧
      (lookupBundle self p b).map Bundle.albedo = some (some a) := by
  have h := lookupBundle_of_zero self blk p b a hblk ha hz
  rw [h]
  exact ⟨rfl, by simp [ha]⟩

/-- Witness of C5: the point `(1, 0, 0)` of the example is in the voxel storing `9`, whose
catalog colour is green; with a wrapped volume that leaves the albedo zero the result
stays zero. -/
theorem zero_albedo_suppression_witness :
    InBounds { demoCfg with m_block := some demoDarkBlock } ⟨1, 0, 0⟩ ∧
      readCell demoCfg.m_spectrumId 1 = some 9 ∧
      demoCfg.m_spectrumMap.find 9 = some demoGreen.colour ∧
      demoGreen.colour.isZero = false ∧
      (lookupBundle { demoCfg with m_block := some demoDarkBlock } ⟨1, 0, 0⟩ demoRequest).map
        Bundle.albedo = some (some Spectrum.zero) :=
  ⟨by simp [InBounds, demoCfg, demoLoaded, demo_transformAffine, floorToInt],
   by decide, by decide, by decide,
   (zero_albedo_suppression { demoCfg with m_block := some demoDarkBlock } demoDarkBlock
      ⟨1, 0, 0⟩ demoRequest Spectrum.zero rfl rfl (by decide)).2⟩

/-- C6. Asymmetric override scope: `lookupSpectrum` and `lookupSpectrumEx` return what
the wrapped volume returns, whatever grid, catalog, resolution and transform the
decorator holds. -/
theorem spectrum_lookups_delegate (self : TextureAlbedoVolume) (blk : VolumeDataSourceEx)
    (grid : List Int) (cat : spectrum_map_t) (reso : Vector3i) (t : Transform)
    (id : Nat) (p : Point) :
    lookupSpectrum { self with m_block := some blk, m_spectrumId := grid,
                               m_spectrumMap := cat, m_reso := reso,
                               m_worldToTexture := t } p = some (blk.lookupSpectrum p) ∧
    lookupSpectrumEx { self with m_block := some blk, m_spectrumId := grid,
                                 m_spectrumMap := cat, m_reso := reso,
                                 m_worldToTexture := t } id p =
      some (blk.lookupSpectrumEx id p) :=
  ⟨rfl, rfl⟩

/-- C7. The transform computed by `configure` maps a world point `p` to
`((p.x - min.x) * nx / extent.x, (p.y - min.y) * ny / extent.y,
(p.z - min.z) * nz / extent.z)` in exact arithmetic, for the bounding box of the wrapped
volume and the resolution held after `configure`; when no extent is zero, the minimum
corner maps to `(0, 0, 0)` and the maximum corner to `(nx, ny, nz)`. -/
theorem world_to_texture_mapping (fs : String → Option Stream)
    (self cfg : TextureAlbedoVolume) (blk : VolumeDataSourceEx) (p : Point)
    (hcfg : configure fs self = .ok cfg) (hblk : self.m_block = some blk)
    (hx : blk.getAABB.getExtents.x ≠ 0) (hy : blk.getAABB.getExtents.y ≠ 0)
    (hz : blk.getAABB.getExtents.z ≠ 0) :
    cfg.m_worldToTexture.transformAffine p =
        ⟨(p.x - blk.getAABB.min.x) * cfg.m_reso.x / blk.getAABB.getExtents.x,
         (p.y - blk.getAABB.min.y) * cfg.m_reso.y / blk.getAABB.getExtents.y,
         (p.z - blk.getAABB.min.z) * cfg.m_reso.z / blk.getAABB.getExtents.z⟩ ∧
      cfg.m_worldToTexture.transformAffine blk.getAABB.min = ⟨0, 0, 0⟩ ∧
      cfg.m_worldToTexture.transformAffine blk.getAABB.max =
        ⟨cfg.m_reso.x, cfg.m_reso.y, cfg.m_reso.z⟩ := by
  rw [configure_worldToTexture hcfg hblk]
  simp only [worldToTexture, Transform.transformAffine, Transform.mul, Transform.scale,
    Transform.translate,
    Point.mk.injEq]
  simp only [AABB.getExtents] at hx hy hz ⊢
  refine ⟨⟨?_, ?_, ?_⟩, ⟨?_, ?_, ?_⟩, ⟨?_, ?_, ?_⟩⟩
  · field_simp; ring
  · field_simp; ring
  · field_simp; ring
  · ring
  · ring
  · ring
  · field_simp; ring
  · field_simp; ring
  · field_simp; ring

/-- Witness of C7: the example (box `[0,2] x [0,1] x [0,1]`, resolution 2 x 1 x 1) at
the point `(1, 1/2, 1/2)`. -/
theorem world_to_texture_mapping_witness :
    configure demoFs demoSelf = .ok demoCfg ∧
      demoCfg.m_worldToTexture.transformAffine ⟨1, 1 / 2, 1 / 2⟩ =
        ⟨(1 - demoBlock.getAABB.min.x) * demoCfg.m_reso.x / demoBlock.getAABB.getExtents.x,
         (1 / 2 - demoBlock.getAABB.min.y) * demoCfg.m_reso.y /
           demoBlock.getAABB.getExtents.y,
         (1 / 2 - demoBlock.getAABB.min.z) * demoCfg.m_reso.z /
           demoBlock.getAABB.getExtents.z⟩ ∧
      demoCfg.m_worldToTexture.transformAffine demoBlock.getAABB.min = ⟨0, 0, 0⟩ ∧
      demoCfg.m_worldToTexture.transformAffine demoBlock.getAABB.max =
        ⟨demoCfg.m_reso.x, demoCfg.m_reso.y, demoCfg.m_reso.z⟩ :=
  ⟨rfl, world_to_texture_mapping demoFs demoSelf demoCfg demoBlock ⟨1, 1 / 2, 1 / 2⟩ rfl rfl
    (by simp [demoBlock, AABB.getExtents]) (by simp [demoBlock, AABB.getExtents])
    (by simp [demoBlock, AABB.getExtents])⟩

/-- Binary layout where the `int` product of line 97 does not overflow: for a byte
stream made of three int32 `nx, ny, nz` with `nx * ny * nz < 2^31` (in particular for
positive components whose product does not wrap), an int32 count `C >= 0`, `C` records and `nx * ny * nz` int32 values that are
all keys of records, followed by any bytes `tail`, `loadTextureAlbedo` of a freshly
constructed decorator succeeds, sets the resolution to `(nx, ny, nz)`,
builds a catalog whose keys are exactly the record keys, stores the grid values in file
order, and leaves exactly `tail` unread, after `16 + 16*C + 4*nx*ny*nz` bytes. -/
theorem binary_layout (self : TextureAlbedoVolume) (reso : Vector3i) (recs : List Record)
    (grid : List Int) (tail : Stream)
    (hempty : self.m_spectrumMap = [])
    (hx : IsInt32 reso.x) (hy : IsInt32 reso.y) (hz : IsInt32 reso.z)
    (hn : recs.length < 2147483648) (hk : ∀ rec ∈ recs, IsInt32 rec.key)
    (hgrid : ∀ v ∈ grid, IsInt32 v)
    (hlen : (grid.length : Int) = reso.x * reso.y * reso.z)
    (hsize : reso.x * reso.y * reso.z < 2147483648)
    (hvalid : ∀ v ∈ grid, ∃ rec ∈ recs, rec.key = v) :
    ∃ st : TextureAlbedoVolume,
      loadTextureAlbedo self (encodeFile reso recs.length recs grid ++ tail) = .ok (st, tail) ∧
      st.m_reso = reso ∧
      (∀ k : Int, (st.m_spectrumMap.find k).isSome = true ↔ ∃ rec ∈ recs, rec.key = k) ∧
      st.m_spectrumId = grid ∧
      ((encodeFile reso recs.length recs grid).length : Int) =
        16 + 16 * recs.length + 4 * (reso.x * reso.y * reso.z) := by
  have hkeys : ∀ k : Int, ((insertRecords self.m_spectrumMap recs).find k).isSome = true ↔
      ∃ rec ∈ recs, rec.key = k := by
    intro k
    rw [hempty, find_insertRecords_nil, Option.isSome_map']
    exact firstRecord_isSome_iff k recs
  have hlen2 : (grid.length : Int) = imul (imul reso.x reso.y) reso.z := by
    rw [imul_imul_of_lt (by omega) hsize]; exact hlen
  refine ⟨{ self with m_reso := reso, m_nSpectrumItems := recs.length,
                      m_spectrumMap := insertRecords self.m_spectrumMap recs,
                      m_spectrumId := grid }, ?_, rfl, hkeys, rfl, ?_⟩
  · rw [loadTextureAlbedo_encodeFile self reso recs grid tail hx hy hz hn hk]
    exact loadGrid_encodeInts_ok self reso _ _ grid tail hlen2 hgrid
      (fun v hv => (hkeys v).mpr (hvalid v hv))
  · rw [encodeFile_length, ← hlen]
    push_cast
    ring

/-- Example of the binary layout: the example file, followed by two more bytes. -/
theorem binary_layout_witness :
    ∃ st : TextureAlbedoVolume,
      loadTextureAlbedo demoSelf (encodeFile ⟨2, 1, 1⟩ 2 [demoRed, demoGreen] [7, 9] ++
        [0, 255]) = .ok (st, [0, 255]) ∧
      st.m_reso = ⟨2, 1, 1⟩ ∧
      (∀ k : Int, (st.m_spectrumMap.find k).isSome = true ↔
        ∃ rec ∈ [demoRed, demoGreen], rec.key = k) ∧
      st.m_spectrumId = [7, 9] ∧
      ((encodeFile ⟨2, 1, 1⟩ 2 [demoRed, demoGreen] [7, 9]).length : Int) =
        16 + 16 * 2 + 4 * (2 * 1 * 1) :=
  binary_layout demoSelf ⟨2, 1, 1⟩ [demoRed, demoGreen] [7, 9] [0, 255] rfl
    (by decide) (by decide) (by decide) (by decide) (by decide) (by decide) (by decide)
    (by decide) (by decide)

/-- C8 (code defect). Binary layout says that a stream of three positive int32
`nx, ny, nz`, a count `C >= 0`, `C` records and `nx * ny * nz` grid values that are all
catalog keys is loaded with `grid[i]` the `i`-th grid value and is consumed to its end.
The code breaks it through the unchecked `int` product of line 97: for the header
`65536 x 65536 x 1` (all components positive), the count `1`, one record with the key
`7` and `2^32` grid values `7`, all catalog keys, the product wraps to `0`: the load
succeeds but stores no grid cell and leaves the whole grid section, `4 * 2^32` bytes,
unread. -/
theorem binary_layout_failing_input :
    ((List.replicate 4294967296 (7 : Int)).length : Int) = 65536 * 65536 * 1 ∧
      (∀ v ∈ List.replicate 4294967296 (7 : Int), ∃ rec ∈ [demoRed], rec.key = v) ∧
      ∃ st rest,
        loadTextureAlbedo demoSelf
          (encodeFile ⟨65536, 65536, 1⟩ 1 [demoRed] (List.replicate 4294967296 7)) =
          .ok (st, rest) ∧
        st.m_spectrumId = [] ∧ rest.length = 4 * 4294967296 := by
  refine ⟨?_, ?_, ?_⟩
  · rw [List.length_replicate]; rfl
  · intro v hv
    rw [List.eq_of_mem_replicate hv]
    exact ⟨demoRed, List.mem_singleton.mpr rfl, rfl⟩
  · refine ⟨_, _, loadTextureAlbedo_wide demoSelf [demoRed] _ (by decide) (by decide), rfl, ?_⟩
    rw [encodeInts_length, List.length_replicate]

/-- C9 (amended). A non-positive resolution is not checked: for a readable header and
catalog section followed by any bytes `tail`, when a resolution component is zero
`loadTextureAlbedo` succeeds with a grid of no cell and reads nothing of `tail`; when the
`int` product `nx * ny * nz` is negative it fails at the allocation of line 97, whatever
`tail` holds. -/
theorem nonpositive_resolution_not_checked (self : TextureAlbedoVolume) (reso : Vector3i)
    (recs : List Record) (tail : Stream)
    (hx : IsInt32 reso.x) (hy : IsInt32 reso.y) (hz : IsInt32 reso.z)
    (hn : recs.length < 2147483648) (hk : ∀ rec ∈ recs, IsInt32 rec.key) :
    ((reso.x = 0 ∨ reso.y = 0 ∨ reso.z = 0) →
      loadTextureAlbedo self (encodeFile reso recs.length recs [] ++ tail) =
        .ok ({ self with m_reso := reso, m_nSpectrumItems := recs.length,
                         m_spectrumMap := insertRecords self.m_spectrumMap recs,
                         m_spectrumId := [] }, tail)) ∧
    (imul (imul reso.x reso.y) reso.z < 0 →
      loadTextureAlbedo self (encodeFile reso recs.length recs [] ++ tail) =
        .error .badAlloc) := by
  have hl := loadTextureAlbedo_encodeFile self reso recs [] tail hx hy hz hn hk
  constructor
  · intro h0
    rw [hl]
    apply loadGrid_of_zero
    rw [imul_imul]
    have hp : reso.x * reso.y * reso.z = 0 := by
      rcases h0 with h | h | h <;> rw [h] <;> ring
    rw [hp]
    rfl
  · intro hneg
    rw [hl]
    exact loadGrid_of_neg self reso _ _ _ hneg

/-- Witness of C9 (amended): the header `0 x 1 x 1` is accepted and the header
`-1 x 1 x 1` fails at the allocation. -/
theorem nonpositive_resolution_not_checked_witness :
    loadTextureAlbedo demoSelf (encodeFile ⟨0, 1, 1⟩ 1 [demoRed] [] ++ [1, 2, 3]) =
        .ok ({ demoSelf with m_reso := ⟨0, 1, 1⟩, m_nSpectrumItems := 1,
                             m_spectrumMap := insertRecords demoSelf.m_spectrumMap [demoRed],
                             m_spectrumId := [] }, [1, 2, 3]) ∧
      loadTextureAlbedo demoSelf (encodeFile ⟨-1, 1, 1⟩ 1 [demoRed] [] ++ [1, 2, 3]) =
        .error .badAlloc :=
  ⟨(nonpositive_resolution_not_checked demoSelf ⟨0, 1, 1⟩ [demoRed] [1, 2, 3]
      (by decide) (by decide) (by decide) (by decide) (by decide)).1 (Or.inl rfl),
   (nonpositive_resolution_not_checked demoSelf ⟨-1, 1, 1⟩ [demoRed] [1, 2, 3]
      (by decide) (by decide) (by decide) (by decide) (by decide)).2 (by decide)⟩

/-- Counterexample to C9 as stated: a file whose header is `0 x 5 x 5` with an empty
catalog, and a file whose header is `-1 x -1 x 1` with the catalog `7 -> red` and one
grid value `7`; `loadTextureAlbedo` returns a loaded state for both. -/
theorem nonpositive_resolution_counterexample :
    loadTextureAlbedo demoSelf (encodeFile ⟨0, 5, 5⟩ 0 [] []) =
        .ok ({ demoSelf with m_reso := ⟨0, 5, 5⟩, m_nSpectrumItems := 0,
                             m_spectrumMap := [], m_spectrumId := [] }, []) ∧
      loadTextureAlbedo demoSelf (encodeFile ⟨-1, -1, 1⟩ 1 [demoRed] [7]) =
        .ok ({ demoSelf with m_reso := ⟨-1, -1, 1⟩, m_nSpectrumItems := 1,
                             m_spectrumMap := [(7, demoRed.colour)],
                             m_spectrumId := [7] }, []) :=
  ⟨rfl, rfl⟩

/-- No-file pass-through where the lookup does not reach the never-assigned members: a
decorator constructed without `textureAlbedoFile` never calls `loadTextureAlbedo`; after `configure` its catalog is
empty, `m_spectrumId` has no allocated cell and `m_reso` is what the constructor left.
`lookupBundle` returns exactly the four slots of the wrapped volume whenever the albedo
slot is not requested, or the wrapped volume leaves it zero, or the floored texture
coordinate fails the bounds test of `updateAlbedo` against that `m_reso`; the last
holds at every point when a component of `m_reso` is not positive. -/
theorem no_file_pass_through (fs : String → Option Stream) (props : Properties)
    (raw cfg : TextureAlbedoVolume) (blk : VolumeDataSourceEx) (p : Point) (b : Bundle)
    (hfile : props.getString "textureAlbedoFile" "" = "")
    (hcfg : configure fs { TextureAlbedoVolume.create props raw with m_block := some blk } =
      .ok cfg)
    (hsafe : b.albedo = none ∨
      (∃ a, (blk.lookupBundle p b.cleared).albedo = some a ∧ a.isZero = true) ∨
      ¬ InBounds cfg p ∨ raw.m_reso.x ≤ 0 ∨ raw.m_reso.y ≤ 0 ∨ raw.m_reso.z ≤ 0) :
    cfg.m_spectrumMap = [] ∧ cfg.m_spectrumId = [] ∧ cfg.m_reso = raw.m_reso ∧
      lookupBundle cfg p b = some (blk.lookupBundle p b.cleared) := by
  obtain ⟨hr, hi, hm⟩ := configure_not_loaded hcfg hfile
  have hb : cfg.m_block = some blk := by rw [configure_block hcfg]
  have hreso : cfg.m_reso = raw.m_reso := hr
  refine ⟨hm, hi, hreso, ?_⟩
  have hnot : (raw.m_reso.x ≤ 0 ∨ raw.m_reso.y ≤ 0 ∨ raw.m_reso.z ≤ 0) → ¬ InBounds cfg p := by
    intro h hin
    unfold InBounds at hin
    simp only [] at hin
    rw [hreso] at hin
    omega
  rcases hsafe with h | ⟨a, ha, hz⟩ | h | h
  · exact lookupBundle_of_not_requested cfg blk p b hb h
  · exact lookupBundle_of_zero cfg blk p b a hb ha hz
  · exact lookupBundle_of_not_inBounds cfg blk p b hb h
  · exact lookupBundle_of_not_inBounds cfg blk p b hb (hnot h)

/-- Example of the no-file pass-through: a decorator constructed without
`textureAlbedoFile` over members whose `m_reso` is `(0, 0, 0)` returns the white albedo
of the wrapped volume at the minimum corner of the box. -/
theorem no_file_pass_through_witness :
    lookupBundle
        { demoRaw with m_block := some demoBlock, m_stepSize := 1,
                       m_aabb := ⟨⟨0, 0, 0⟩, ⟨2, 1, 1⟩⟩,
                       m_worldToTexture := worldToTexture ⟨0, 0, 0⟩ ⟨⟨0, 0, 0⟩, ⟨2, 1, 1⟩⟩ }
        ⟨0, 0, 0⟩ demoRequest =
      some (demoBlock.lookupBundle ⟨0, 0, 0⟩ demoRequest.cleared) :=
  (no_file_pass_through (fun _ => none) [] demoRaw _ demoBlock ⟨0, 0, 0⟩ demoRequest rfl rfl
    (Or.inr (Or.inr (Or.inr (Or.inl (by decide)))))).2.2.2

/-- C10 (code defect). No-file pass-through says that a decorator configured without
`textureAlbedoFile` returns exactly the four slots of the wrapped volume. The code
breaks it because `lookupBundle` has no test for a loaded texture and `m_reso` and
`m_spectrumId` are assigned nowhere but in `loadTextureAlbedo`: for a decorator
constructed without `textureAlbedoFile` whose never-assigned `m_reso` holds
`(1, 1, 1)`, wrapping a volume over the unit box that returns a white albedo, at the
point `(0, 0, 0)` the bounds test of `updateAlbedo` passes and line 172 reads
`m_spectrumId[0]`, a cell that was never allocated: the lookup has no defined result.
The scale factors of the unit box are `1` and the point is the origin, so the transform
is exact in single precision as well. -/
theorem no_file_pass_through_failing_input :
    noFileSelf.m_textureAlbedoFile = "" ∧
      configure (fun _ => none) noFileSelf = .ok noFileCfg ∧
      (unitBlock.lookupBundle ⟨0, 0, 0⟩ demoRequest.cleared).albedo = some demoWhite ∧
      InBounds noFileCfg ⟨0, 0, 0⟩ ∧
      noFileCfg.m_spectrumId = [] ∧
      lookupBundle noFileCfg ⟨0, 0, 0⟩ demoRequest = none := by
  refine ⟨rfl, rfl, rfl, ?_, rfl, ?_⟩
  · simp [InBounds, noFileCfg, origin_transformAffine, floorToInt, noFileSelf,
      TextureAlbedoVolume.create, onesRaw]
  · simp [lookupBundle, updateAlbedo, noFileCfg, origin_transformAffine, floorToInt,
      noFileSelf, TextureAlbedoVolume.create, onesRaw, unitBlock, demoBlock, demoRequest,
      Bundle.cleared, demoWhite, Spectrum.isZero, F32.isZero, readCell]
    decide

/-- C12. Single wrapped volume: `addChild` with a volume-typed child stores the child as
the wrapped volume when none is held, and fails when one is held (no new state: the
held volume stays); after any sequence of `addChild` calls with volume-typed children on
a decorator that holds none, the wrapped volume is the first child of the sequence. -/
theorem single_wrapped_volume
    (baseAddChild : TextureAlbedoVolume → String → Except Error TextureAlbedoVolume)
    (self : TextureAlbedoVolume) (name : String) (blk held : VolumeDataSourceEx)
    (children : List (String × VolumeDataSourceEx)) :
    addChild baseAddChild { self with m_block := none } name (.volume blk) =
        .ok { self with m_block := some blk } ∧
    addChild baseAddChild { self with m_block := some held } name (.volume blk) =
        .error .assertionFailed ∧
    (addChildren baseAddChild { self with m_block := some held }
        (children.map (fun c => (c.1, ConfigurableObject.volume c.2)))).m_block = some held ∧
    (addChildren baseAddChild { self with m_block := none }
        (children.map (fun c => (c.1, ConfigurableObject.volume c.2)))).m_block =
      children.head?.map Prod.snd := by
  refine ⟨rfl, rfl, addChildren_of_held baseAddChild children _ held rfl, ?_⟩
  cases children with
  | nil => rfl
  | cons c cs =>
    simp only [List.map_cons, addChildren, addChild, List.head?_cons, Option.map_some']
    exact addChildren_of_held baseAddChild cs _ c.2 rfl

/-- C13. Missing wrapped volume is fatal: `configure` on a decorator whose `m_block` is
null fails with the error "No embedded volume specified!", whatever the file name and
the file system hold; nothing is loaded or computed. -/
theorem missing_wrapped_volume_fatal (fs : String → Option Stream)
    (self : TextureAlbedoVolume) (h : self.m_block = none) :
    configure fs self = .error .noEmbeddedVolume := by
  unfold configure
  rw [h]

/-- Witness of C13: a decorator constructed with the file name `albedo.bin`, to which no
volume was attached. -/
theorem missing_wrapped_volume_fatal_witness :
    configure demoFs (TextureAlbedoVolume.create [("textureAlbedoFile", "albedo.bin")] demoRaw) =
      .error .noEmbeddedVolume :=
  missing_wrapped_volume_fatal demoFs _ rfl

/-- Eager validation of the cells that were read: in a state produced by `configure`
with a texture file (so by a successful `loadTextureAlbedo`), every cell of the loaded grid holds a key
of the catalog, and the grid has as many cells as the `int` product of the resolution;
when `nx * ny * nz < 2^31` these are all `nx * ny * nz` cells, and for every point whose
floored texture coordinate is in bounds the grid read of `updateAlbedo` is defined, the
catalog lookup finds an entry and `updateAlbedo` returns that entry, never the
unchanged albedo of the "absent" branch. -/
theorem eager_validation (fs : String → Option Stream) (self cfg : TextureAlbedoVolume)
    (hcfg : configure fs self = .ok cfg) (hfile : self.m_textureAlbedoFile ≠ "") :
    (∀ id ∈ cfg.m_spectrumId, (cfg.m_spectrumMap.find id).isSome = true) ∧
    (cfg.m_spectrumId.length : Int) = imul (imul cfg.m_reso.x cfg.m_reso.y) cfg.m_reso.z ∧
    (cfg.m_reso.x * cfg.m_reso.y * cfg.m_reso.z < 2147483648 →
      ∀ (p : Point) (a : Spectrum), InBounds cfg p →
        (cfg.m_spectrumId.length : Int) = cfg.m_reso.x * cfg.m_reso.y * cfg.m_reso.z ∧
        ∃ (id : Int) (c : Spectrum),
          readCell cfg.m_spectrumId
            (iadd (imul (iadd (imul (floorToInt (cfg.m_worldToTexture.transformAffine p).z)
              cfg.m_reso.y) (floorToInt (cfg.m_worldToTexture.transformAffine p).y))
              cfg.m_reso.x) (floorToInt (cfg.m_worldToTexture.transformAffine p).x)) =
            some id ∧
          cfg.m_spectrumMap.find id = some c ∧ updateAlbedo cfg p a = some c) := by
  obtain ⟨_, hlen, hkeys⟩ := configure_keys hcfg hfile
  refine ⟨hkeys, hlen, ?_⟩
  intro hsize p a hin
  obtain ⟨hl, id, c, hcell, hfind⟩ := configure_cell hcfg hfile p hin hsize
  refine ⟨hl, id, c, hcell, hfind, ?_⟩
  rw [updateAlbedo_of_cell cfg p a id hin hcell, hfind]

/-- Example of the eager validation: in the example the point `(1, 0, 0)` is in bounds,
the cell read is `9`, a key of the catalog, and `updateAlbedo` returns its green. -/
theorem eager_validation_witness :
    ∃ (id : Int) (c : Spectrum),
      readCell demoCfg.m_spectrumId
        (iadd (imul (iadd (imul (floorToInt (demoCfg.m_worldToTexture.transformAffine
          ⟨1, 0, 0⟩).z) demoCfg.m_reso.y) (floorToInt (demoCfg.m_worldToTexture.transformAffine
          ⟨1, 0, 0⟩).y)) demoCfg.m_reso.x) (floorToInt (demoCfg.m_worldToTexture.transformAffine
          ⟨1, 0, 0⟩).x)) = some id ∧
      demoCfg.m_spectrumMap.find id = some c ∧
      updateAlbedo demoCfg ⟨1, 0, 0⟩ demoWhite = some c :=
  ((eager_validation demoFs demoSelf demoCfg rfl (by decide)).2.2 (by decide) ⟨1, 0, 0⟩
    demoWhite (by simp [InBounds, demoCfg, demoLoaded, demo_transformAffine, floorToInt])).2

/-- C14 (code defect). Eager validation says that after a successful
`loadTextureAlbedo` every one of the `nx * ny * nz` grid values is a catalog key, so the
catalog lookup of `updateAlbedo` finds an entry at every in-bounds point. The code
breaks it through the unchecked `int` product of line 97: in the state loaded from the
header `65536 x 65536 x 1` the product wraps to `0` and the grid has no cell. The point
`(2, 3, 0)` floors to the texel `(2, 3, 0)`, in bounds, but the grid read of
`updateAlbedo` is outside the allocated block: no catalog entry is found. The scale
factors of the box `[0,65536] x [0,65536] x [0,1]` are `1`, so the transform is exact in
single precision as well. -/
theorem eager_validation_failing_input :
    configure wideFs wideSelf = .ok wideCfg ∧
      wideSelf.m_textureAlbedoFile ≠ "" ∧
      InBounds wideCfg ⟨2, 3, 0⟩ ∧
      readCell wideCfg.m_spectrumId
        (iadd (imul (iadd (imul 0 wideCfg.m_reso.y) 3) wideCfg.m_reso.x) 2) = none ∧
      updateAlbedo wideCfg ⟨2, 3, 0⟩ demoWhite = none := by
  refine ⟨rfl, by decide, ?_, by decide, ?_⟩
  · simp [InBounds, wideCfg, wide_transformAffine, floorToInt]
  · simp [updateAlbedo, wideCfg, wide_transformAffine, floorToInt, readCell]

/-- Frame of a bundle lookup wherever the lookup is defined: after `configure`,
whenever `lookupBundle` has a result, its density, direction and gloss are exactly the slots the wrapped volume's
`lookupBundle` leaves when called with every requested slot pre-set to zero (only the
albedo can differ, the direction is not normalized); and in a state loaded from a
texture file with `nx * ny * nz < 2^31` it has a result at every point. -/
theorem bundle_lookup_frame (fs : String → Option Stream) (self cfg : TextureAlbedoVolume)
    (blk : VolumeDataSourceEx) (p : Point) (b : Bundle)
    (hcfg : configure fs self = .ok cfg) (hblk : self.m_block = some blk) :
    b.cleared = ⟨b.density.map (fun _ => 0), b.direction.map (fun _ => Vector.zero),
                 b.albedo.map (fun _ => Spectrum.zero), b.gloss.map (fun _ => 0)⟩ ∧
    (∀ out : Bundle, lookupBundle cfg p b = some out →
      out.density = (blk.lookupBundle p b.cleared).density ∧
      out.direction = (blk.lookupBundle p b.cleared).direction ∧
      out.gloss = (blk.lookupBundle p b.cleared).gloss) ∧
    (self.m_textureAlbedoFile ≠ "" →
      cfg.m_reso.x * cfg.m_reso.y * cfg.m_reso.z < 2147483648 →
      ∃ out : Bundle, lookupBundle cfg p b = some out) := by
  have hb : cfg.m_block = some blk := by rw [configure_block hcfg, hblk]
  refine ⟨rfl, fun out h => lookupBundle_frame cfg blk p b out hb h, ?_⟩
  intro hfile hsize
  cases hreq : b.albedo with
  | none => exact ⟨_, lookupBundle_of_not_requested cfg blk p b hb hreq⟩
  | some a0 =>
    cases ha : (blk.lookupBundle p b.cleared).albedo with
    | none => exact ⟨_, lookupBundle_of_no_albedo cfg blk p b hb ha⟩
    | some a =>
      cases hz : a.isZero with
      | true => exact ⟨_, lookupBundle_of_zero cfg blk p b a hb ha hz⟩
      | false =>
        by_cases hin : InBounds cfg p
        · obtain ⟨_, id, c, hcell, hfind⟩ := configure_cell hcfg hfile p hin hsize
          exact ⟨_, lookupBundle_of_cell cfg blk p b a a0 c id hb hreq ha hz hin hcell hfind⟩
        · exact ⟨_, lookupBundle_of_not_inBounds cfg blk p b hb hin⟩

/-- Example of the frame: the example at the point `(1, 0, 0)` with all four slots
requested: the lookup has a result and its density, direction and gloss are the zero
slots the wrapped volume left. -/
theorem bundle_lookup_frame_witness :
    ∃ out : Bundle, lookupBundle demoCfg ⟨1, 0, 0⟩ demoFullRequest = some out ∧
      out.density = (demoBlock.lookupBundle ⟨1, 0, 0⟩ demoFullRequest.cleared).density ∧
      out.direction = (demoBlock.lookupBundle ⟨1, 0, 0⟩ demoFullRequest.cleared).direction ∧
      out.gloss = (demoBlock.lookupBundle ⟨1, 0, 0⟩ demoFullRequest.cleared).gloss :=
  have h := bundle_lookup_frame demoFs demoSelf demoCfg demoBlock ⟨1, 0, 0⟩ demoFullRequest
    rfl rfl
  Exists.elim (h.2.2 (by decide) (by decide)) (fun out ho => ⟨out, ho, h.2.1 out ho⟩)

/-- C15 (code defect). Bundle lookup frame says that in every loaded state the
density, direction and gloss outputs of `lookupBundle` are those of the wrapped volume.
The code breaks it through the unchecked `int` product of line 97: in the state loaded
from the header `65536 x 65536 x 1` (grid of no cell) a bundle lookup for all four slots
at the point `(1, 1, 0)`, in bounds, with the white albedo of the wrapped volume, reads
`m_spectrumId` outside the allocated block: it has no defined result, hence no density,
direction or gloss output. The scale factors of the box `[0,65536] x [0,65536] x [0,1]`
are `1`, so the transform is exact in single precision as well. -/
theorem bundle_lookup_frame_failing_input :
    configure wideFs wideSelf = .ok wideCfg ∧
      wideSelf.m_textureAlbedoFile ≠ "" ∧
      InBounds wideCfg ⟨1, 1, 0⟩ ∧
      (wideBlock.lookupBundle ⟨1, 1, 0⟩ demoFullRequest.cleared).albedo = some demoWhite ∧
      lookupBundle wideCfg ⟨1, 1, 0⟩ demoFullRequest = none := by
  refine ⟨rfl, by decide, ?_, rfl, ?_⟩
  · simp [InBounds, wideCfg, wide_transformAffine, floorToInt]
  · simp [lookupBundle, updateAlbedo, wideCfg, wide_transformAffine, floorToInt, wideSelf,
      wideBlock, demoBlock, demoFullRequest, Bundle.cleared, demoWhite, Spectrum.isZero,
      F32.isZero, readCell]
    decide

/-- C16 (code defect). Exact-corner behaviour says that for a box with non-zero extents
and a positive resolution a bundle lookup at the minimum corner with a non-zero
delegated albedo floors to `(0, 0, 0)` and returns `catalog[grid[0]]`. The code breaks
it through the unchecked `int` product of line 97: in the state loaded from the header
`65536 x 32768 x 2`, a positive resolution whose product wraps to `0`, over the box
`[0,65536] x [0,32768] x [0,2]`, the minimum corner floors to `(0, 0, 0)`, in bounds, the
wrapped volume returns white, and the grid has no cell `0`: the lookup reads outside the
allocated block and returns no catalog colour. The scale factors of this box are `1`
and the corner is the origin, so the transform is exact in single precision as well;
nothing is stated here about the maximum corner, whose texel depends on the rounding of
`reso / extent` in single precision. -/
theorem exact_corner_failing_input :
    configure deepFs deepSelf = .ok deepCfg ∧
      deepSelf.m_textureAlbedoFile ≠ "" ∧
      deepBlock.getAABB.getExtents.x ≠ 0 ∧ deepBlock.getAABB.getExtents.y ≠ 0 ∧
      deepBlock.getAABB.getExtents.z ≠ 0 ∧
      0 < deepCfg.m_reso.x ∧ 0 < deepCfg.m_reso.y ∧ 0 < deepCfg.m_reso.z ∧
      InBounds deepCfg deepBlock.getAABB.min ∧
      (deepBlock.lookupBundle deepBlock.getAABB.min demoRequest.cleared).albedo =
        some demoWhite ∧
      deepCfg.m_spectrumId[0]? = none ∧
      lookupBundle deepCfg deepBlock.getAABB.min demoRequest = none := by
  refine ⟨rfl, by decide, ?_, ?_, ?_, by decide, by decide, by decide, ?_, rfl, rfl, ?_⟩
  · simp [deepBlock, AABB.getExtents]
  · simp [deepBlock, AABB.getExtents]
  · simp [deepBlock, AABB.getExtents]
  · simp [InBounds, deepCfg, deepBlock, origin_transformAffine, floorToInt]
  · simp [lookupBundle, updateAlbedo, deepCfg, origin_transformAffine, floorToInt, deepSelf,
      deepBlock, demoBlock, demoRequest, Bundle.cleared, demoWhite, Spectrum.isZero,
      F32.isZero, readCell]
    decide

/-- C17. Grid indexing: for a resolution with `nx * ny * nz < 2^31` and a coordinate
`(tx, ty, tz)` that passes the bounds test of `updateAlbedo` (so `nx, ny, nz > 0`), the
`int` offset computed on line 172 is `(tz*ny + ty)*nx + tx` without wrap-around, it lies
in `[0, nx*ny*nz)`, which is the length of the array a successful `loadTextureAlbedo`
with this resolution allocates, so the read is defined; and another in-bounds coordinate
with the same offset is the same coordinate. -/
theorem grid_indexing_in_range (reso : Vector3i) (tx ty tz : Int)
    (hsize : reso.x * reso.y * reso.z < 2147483648)
    (hx : 0 ≤ tx ∧ tx < reso.x) (hy : 0 ≤ ty ∧ ty < reso.y) (hz : 0 ≤ tz ∧ tz < reso.z) :
    iadd (imul (iadd (imul tz reso.y) ty) reso.x) tx = (tz * reso.y + ty) * reso.x + tx ∧
    0 ≤ (tz * reso.y + ty) * reso.x + tx ∧
    (tz * reso.y + ty) * reso.x + tx < reso.x * reso.y * reso.z ∧
    imul (imul reso.x reso.y) reso.z = reso.x * reso.y * reso.z ∧
    (∀ (self : TextureAlbedoVolume) (stream : Stream) (st : TextureAlbedoVolume)
        (rest : Stream), loadTextureAlbedo self stream = .ok (st, rest) → st.m_reso = reso →
      (st.m_spectrumId.length : Int) = reso.x * reso.y * reso.z ∧
      (readCell st.m_spectrumId
        (iadd (imul (iadd (imul tz reso.y) ty) reso.x) tx)).isSome = true) ∧
    (∀ tx2 ty2 tz2 : Int, (0 ≤ tx2 ∧ tx2 < reso.x) → (0 ≤ ty2 ∧ ty2 < reso.y) →
      (0 ≤ tz2 ∧ tz2 < reso.z) →
      iadd (imul (iadd (imul tz2 reso.y) ty2) reso.x) tx2 =
        iadd (imul (iadd (imul tz reso.y) ty) reso.x) tx →
      tx2 = tx ∧ ty2 = ty ∧ tz2 = tz) := by
  obtain ⟨o1, o2, o3, o4, o5⟩ := offset_bounds hx hy hz
  have hoff := offset_eq hx hy hz hsize
  have hnn : 0 ≤ reso.x * reso.y * reso.z := by omega
  have hprod := imul_imul_of_lt hnn hsize
  refine ⟨hoff, by omega, o5, hprod, ?_, ?_⟩
  · intro self stream st rest hl hr
    obtain ⟨_, hlen, _⟩ := loadTextureAlbedo_grid hl
    rw [hr, hprod] at hlen
    refine ⟨hlen, ?_⟩
    rw [hoff]
    have hlt : (tz * reso.y + ty) * reso.x + tx < st.m_spectrumId.length := by
      rw [hlen]; exact o5
    obtain ⟨id, hcell, _⟩ := readCell_of_lt st.m_spectrumId _ (by omega) hlt
    rw [hcell]
    rfl
  · intro tx2 ty2 tz2 hx2 hy2 hz2 he
    rw [hoff, offset_eq hx2 hy2 hz2 hsize] at he
    exact offset_injective hx2 hy2 hx hy he

/-- Witness of C17: the resolution 4 x 3 x 2 and the coordinate `(3, 2, 1)`, with the
offset `23`, the last of the `24` cells. -/
theorem grid_indexing_in_range_witness :
    iadd (imul (iadd (imul 1 3) 2) 4) 3 = (1 * 3 + 2) * 4 + 3 ∧
      (0 : Int) ≤ (1 * 3 + 2) * 4 + 3 ∧ ((1 * 3 + 2) * 4 + 3 : Int) < 4 * 3 * 2 ∧
      imul (imul 4 3) 2 = 4 * 3 * 2 :=
  have h := grid_indexing_in_range ⟨4, 3, 2⟩ 3 2 1 (by decide) (by decide) (by decide)
    (by decide)
  ⟨h.1, h.2.1, h.2.2.1, h.2.2.2.1⟩

/-- C18. Negative catalog count: a header with a catalog count `C < 0` makes the loop of
`loadTextureAlbedo` run for `C mod 2^64` records, at least `2^64 - 2^31`; for every
stream that holds fewer than that many 16-byte records after the header the load fails
with the end-of-stream error of the catalog section, so it never reaches the grid. -/
theorem negative_catalog_count (self : TextureAlbedoVolume) (stream s1 s2 : Stream)
    (reso : Vector3i) (n : Int)
    (hreso : Vector3i.read stream = .ok (reso, s1)) (hcount : readInt s1 = .ok (n, s2))
    (hneg : n < 0) (hshort : s2.length < 16 * toSizeT n) :
    (toSizeT n : Int) = n + 18446744073709551616 ∧
      18446744073709551616 - 2147483648 ≤ toSizeT n ∧
      readCatalog (toSizeT n) self.m_spectrumMap s2 = .error .endOfStream ∧
      loadTextureAlbedo self stream = .error .endOfStream := by
  obtain ⟨_, h32⟩ := readInt_ok hcount
  obtain ⟨hge, heq⟩ := toSizeT_of_neg hneg h32
  have hcat := readCatalog_short (toSizeT n) self.m_spectrumMap s2 hshort
  refine ⟨heq, by omega, hcat, ?_⟩
  unfold loadTextureAlbedo
  rw [hreso, ok_bind]
  simp only []
  rw [hcount, ok_bind]
  simp only []
  rw [hcat, error_bind]

/-- Witness of C18: a 1 x 1 x 1 file with the count `-1`, no record and the grid value
`7`: the load fails at the end of the stream while reading catalog records. -/
theorem negative_catalog_count_witness :
    loadTextureAlbedo demoSelf (encodeFile ⟨1, 1, 1⟩ (-1) [] [7]) = .error .endOfStream :=
  (negative_catalog_count demoSelf (encodeFile ⟨1, 1, 1⟩ (-1) [] [7])
    (encodeInt (-1) ++ encodeInts [7]) (encodeInts [7]) ⟨1, 1, 1⟩ (-1) rfl
    (by rw [readInt_encodeInt]; rfl) (by decide) (by decide)).2.2.2

end TextureAlbedo
